import Mathlib

/-!
Verification development for the mxGraph-worker-render repository.

The definitions below are a shallow embedding of the routing code in
`src/graph-render-worker/core.js` (the `mxEdgeStyle` object: the orthogonal
router `OrthConnector`, its fallback `SegmentConnector`, the elbow
connectors `SideToSide` / `TopToBottom`, and the helpers `getJettySize`,
`scalePointArray`, `scaleCellState`), and of the worker RPC wrapper
(`WorkerPromise` / `onMessage` in the unnamed worker-promise source file).

JavaScript numbers are modelled as rationals (`ℚ`); `Math.round` is the
round-half-up function `jsRound`.  Mutable arrays that the source threads
through an invocation are modelled by explicit state passing; the
process-wide scratch buffers of `mxEdgeStyle` (`wayPoints1`, `limits`,
`vertexSeperations`) are modelled by an explicit `Scratch` record passed to
each invocation, so that statements about their (ir)relevance can be made.
Fallible statements (null dereferences, out-of-range array indexing that
JavaScript turns into a `TypeError`, and a temporal-dead-zone read) are
modelled with `Except JsFault`.
-/

/-- JavaScript `Math.round`: rounds to the nearest integer, ties toward
positive infinity. -/
def jsRound (q : ℚ) : ℤ := ⌊q + 1/2⌋

/-- One-decimal rounding `Math.round (q * 10) / 10`, the rounding the source
applies to every emitted coordinate. -/
def round10 (q : ℚ) : ℚ := (jsRound (q * 10) : ℚ) / 10

/-! ## Worker RPC wrapper (`WorkerPromise`, unnamed part_000)

The wrapper keeps a table `_callbacks` keyed by a monotonically increasing
numeric correlation id.  `onMessage` ignores messages that are not arrays of
length at least two, looks up `message[0]` in the table, and if a callback is
pending removes it and fires it with `(message[1], message[2])`.  The fired
callback settles the caller's promise: it rejects when the error value is
truthy and resolves with the result otherwise. -/

/-- A JavaScript value as it travels over the worker message channel. -/
inductive JVal where
  | null : JVal
  | jbool : Bool → JVal
  | num : ℤ → JVal
  | str : String → JVal
  | arr : List JVal → JVal
deriving Repr

/-- JavaScript truthiness of a channel value (`if (error)` in the callback). -/
def JVal.truthy : JVal → Bool
  | .null => false
  | .jbool b => b
  | .num n => n != 0
  | .str s => s != ""
  | .arr _ => true

/-- How the pending promise of one request ends up settled. -/
inductive Settlement where
  | resolved : JVal → Settlement
  | rejected : JVal → Settlement
deriving Repr

/-- The pending-callback table `self._callbacks`: correlation id to an opaque
token naming the promise that the recorded callback settles. -/
def CallbackTable := List (ℤ × ℕ)

/-- Lookup of `self._callbacks[messageId]`. -/
def lookupCb : CallbackTable → ℤ → Option ℕ
  | [], _ => none
  | (k, v) :: rest, n => if n = k then some v else lookupCb rest n

/-- `delete self._callbacks[messageId]`. -/
def deleteCb : CallbackTable → ℤ → CallbackTable
  | [], _ => []
  | (k, v) :: rest, n =>
    if k = n then deleteCb rest n else (k, v) :: deleteCb rest n

/-- The callback installed by `postMessage`: `reject(new Error(error.message))`
when the error value is truthy, `resolve(result)` otherwise. -/
def fireCallback (error result : JVal) : Settlement :=
  if error.truthy then Settlement.rejected error else Settlement.resolved result

/-- `onMessage(self, e)`: returns the new callback table together with the
settlement event (the promise token and how it settles), or `none` when the
message is ignored.  A message that is not an array, or an array of length
less than two, is ignored; so is a message whose id matches no pending
callback.  The sender only ever creates numeric ids, so a non-numeric
`message[0]` never matches the table. -/
def onMessage (cbs : CallbackTable) (message : JVal) :
    CallbackTable × Option (ℕ × Settlement) :=
  match message with
  | .arr elems =>
    if elems.length < 2 then (cbs, none)
    else
      let messageId := elems.getD 0 .null
      let error := elems.getD 1 .null
      let result := elems.getD 2 .null
      match messageId with
      | .num n =>
        match lookupCb cbs n with
        | none => (cbs, none)
        | some token => (deleteCb cbs n, some (token, fireCallback error result))
      | _ => (cbs, none)
  | _ => (cbs, none)

/-- `WorkerPromise.prototype.postMessage`: allocates the next correlation id,
records the callback under it and sends `[messageId, userMessage]`.  Returns
the new counter, the new table and the wire message. -/
def postMessage (messageIds : ℤ) (cbs : CallbackTable) (token : ℕ)
    (userMessage : JVal) : ℤ × CallbackTable × JVal :=
  ((messageIds + 1), ((messageIds, token) :: cbs),
    JVal.arr [JVal.num messageIds, userMessage])

/-! ## Geometry and style data model (core.js, `mxPoint` / `mxCellState`)

The modules `mxPoint`, `mxRectangle`, `mxCellState` and most of `mxUtils`
that core.js requires are not part of this repository's sources; the
definitions below that carry a `Modelled from the spec` comment follow the
spec's description of those collaborators (§3 data model, §4.1–§4.3, §6). -/

/-- An immutable point: spec §3 "Point — immutable (x, y) pair of real
numbers". -/
structure MxPoint where
  x : ℚ
  y : ℚ
deriving DecidableEq, Repr

/-- A rectangle (`mxRectangle`): spec §3 "Rectangle — (x, y, width,
height)". -/
structure MxRect where
  x : ℚ
  y : ℚ
  width : ℚ
  height : ℚ
deriving DecidableEq, Repr

/-- A style value: style bags are string-keyed and may hold numbers or
strings (for example the `"auto"` jetty sentinel, or a malformed entry). -/
inductive SVal where
  | num : ℚ → SVal
  | str : String → SVal
deriving DecidableEq, Repr

/-- A style bag: spec §3 "style property bag (string-keyed)". -/
def Style := String → Option SVal

/-- Modelled from the spec: `mxUtils.getValue(style, key, default)` is not
under src/; resolution order per §4.2 is "explicit override → default", so
the present entry is returned and only an absent one falls back to the
default. -/
def getValue (style : Style) (key : String) (dflt : SVal) : SVal :=
  (style key).getD dflt

/-- Numeric reading of a style value.  JavaScript arithmetic on a
non-numeric string yields `NaN`, which `ℚ` cannot represent; the claims
under verification never exercise that corner, and the theorems below hold
for any fixed total coercion, so a non-numeric string reads as `0`. -/
def svalNum : SVal → ℚ
  | .num q => q
  | .str _ => 0

/-- Modelled from the spec: `mxUtils.getNumber` (used for the arrowhead
size in the `"auto"` jetty computation, §4.2) reads a numeric style entry
with a numeric default. -/
def getNumber (style : Style) (key : String) (dflt : ℚ) : ℚ :=
  match style key with
  | some v => svalNum v
  | none => dflt

/-- A cell-state snapshot (`mxCellState`): spec §3 "ShapeGeometry — bounding
rectangle, rotation angle [in the style bag], style property bag, and
whether the underlying model cell is itself an edge".  `portConstraint` is
the precomputed direction mask of `mxUtils.getPortConstraints` (modelled
from the spec, §4.3/§6 "port direction constraints" from the style), `none`
meaning unconstrained. -/
structure CellState where
  x : ℚ
  y : ℚ
  width : ℚ
  height : ℚ
  style : Style
  cellIsEdge : Bool
  portConstraint : Option ℕ

/-- Modelled from the spec: `mxUtils.getPortConstraints(terminal, edge,
isSource, default)` is not under src/; it returns the direction mask an
endpoint is allowed to use, defaulting to the given mask (§4.3). -/
def getPortConstraints (terminal : CellState) (_edge : Style) (_isSource : Bool)
    (dflt : ℕ) : ℕ :=
  terminal.portConstraint.getD dflt

/-- Modelled from the spec: `mxUtils.contains(rect, x, y)` is not under
src/; spec §3: rectangle "containment test contains(px, py)". -/
def containsCS (s : CellState) (px py : ℚ) : Prop :=
  s.x ≤ px ∧ s.x + s.width ≥ px ∧ s.y ≤ py ∧ s.y + s.height ≥ py

instance (s : CellState) (px py : ℚ) : Decidable (containsCS s px py) := by
  unfold containsCS
  infer_instance

/-- Modelled from the spec: `view.getRoutingCenterX` is not under src/; the
spec's channel coordinates (§4.6) are the shape's center. -/
def getRoutingCenterX (s : CellState) : ℚ := s.x + s.width / 2

/-- Modelled from the spec: `view.getRoutingCenterY`, the vertical routing
center of a shape. -/
def getRoutingCenterY (s : CellState) : ℚ := s.y + s.height / 2

/-- The state of the edge being routed: its absolute points (entries are
null for floating endpoints), the view scale, the edge's style bag, and an
oracle for `view.transformControlPoint` (not under src/; modelled from the
spec as an arbitrary per-view point transformation). -/
structure EdgeState where
  absolutePoints : List (Option MxPoint)
  scale : ℚ
  style : Style
  transformCP : MxPoint → MxPoint

/-- `view.transformControlPoint(state, pt)`: null in, null out; otherwise
the view's transformation of the point. -/
def transformControlPoint (state : EdgeState) (p : Option MxPoint) :
    Option MxPoint :=
  p.map state.transformCP

/-! ## `mxEdgeStyle` constants and scaling helpers (core.js 900–1099) -/

/-- `mxEdgeStyle.orthBuffer` (core.js 900). -/
def orthBuffer : ℚ := 10

/-- `mxEdgeStyle.orthPointsFallback` (core.js 902). -/
def orthPointsFallback : Bool := true

/-- Modelled from the spec: the `mxConstants` direction masks are not under
src/.  The values are pinned by core.js itself: route-pattern direction
nibbles are compared against `DIRECTION_MASK_EAST` and remapped to index 3
of `dirVectors` (west, north, east, south at indices 1–4), so west = 1,
north = 2, south = 4, east = 8, all = 15, none = 0. -/
def DIRECTION_MASK_NONE : ℕ := 0

/-- Direction mask west (see `DIRECTION_MASK_NONE`). -/
def DIRECTION_MASK_WEST : ℕ := 1

/-- Direction mask north. -/
def DIRECTION_MASK_NORTH : ℕ := 2

/-- Direction mask south. -/
def DIRECTION_MASK_SOUTH : ℕ := 4

/-- Direction mask east. -/
def DIRECTION_MASK_EAST : ℕ := 8

/-- Direction mask all. -/
def DIRECTION_MASK_ALL : ℕ := 15

/-- Modelled from the spec: `mxUtils.reversePortConstraints` is not under
src/; §4.3 "reversing to the opposite side if the preferred side is
disallowed". -/
def reversePortConstraints (m : ℕ) : ℕ :=
  if m = DIRECTION_MASK_WEST then DIRECTION_MASK_EAST
  else if m = DIRECTION_MASK_EAST then DIRECTION_MASK_WEST
  else if m = DIRECTION_MASK_NORTH then DIRECTION_MASK_SOUTH
  else if m = DIRECTION_MASK_SOUTH then DIRECTION_MASK_NORTH
  else m

/-- `mxEdgeStyle.dirVectors` (core.js 904–912). -/
def dirVectors : List (ℚ × ℚ) :=
  [(-1, 0), (0, -1), (1, 0), (0, 1), (-1, 0), (0, -1), (1, 0)]

/-- `mxEdgeStyle.routePatterns` (core.js 929–954). -/
def routePatterns : List (List (List ℕ)) :=
  [[[513, 2308, 2081, 2562],
    [513, 1090, 514, 2184, 2114, 2561],
    [513, 1090, 514, 2564, 2184, 2562],
    [513, 2308, 2561, 1090, 514, 2568, 2308]],
   [[514, 1057, 513, 2308, 2081, 2562],
    [514, 2184, 2114, 2561],
    [514, 2184, 2562, 1057, 513, 2564, 2184],
    [514, 1057, 513, 2568, 2308, 2561]],
   [[1090, 514, 1057, 513, 2308, 2081, 2562],
    [2114, 2561],
    [1090, 2562, 1057, 513, 2564, 2184],
    [1090, 514, 1057, 513, 2308, 2561, 2568]],
   [[2081, 2562],
    [1057, 513, 1090, 514, 2184, 2114, 2561],
    [1057, 513, 1090, 514, 2184, 2562, 2564],
    [1057, 2561, 1090, 514, 2568, 2308]]]

/-- `mxEdgeStyle.LEFT_MASK` (core.js 969). -/
def LEFT_MASK : ℕ := 32

/-- `mxEdgeStyle.TOP_MASK`. -/
def TOP_MASK : ℕ := 64

/-- `mxEdgeStyle.RIGHT_MASK`. -/
def RIGHT_MASK : ℕ := 128

/-- `mxEdgeStyle.BOTTOM_MASK`. -/
def BOTTOM_MASK : ℕ := 256

/-- `mxEdgeStyle.SIDE_MASK` (core.js 986). -/
def SIDE_MASK : ℕ := 480

/-- `mxEdgeStyle.CENTER_MASK`. -/
def CENTER_MASK : ℕ := 512

/-- `mxEdgeStyle.SOURCE_MASK`. -/
def SOURCE_MASK : ℕ := 1024

/-- `mxEdgeStyle.TARGET_MASK`. -/
def TARGET_MASK : ℕ := 2048

/-- `mxEdgeStyle.getJettySize(state, isSource)` (core.js 999–1037): the
per-endpoint jetty key, falling back to the shared key, falling back to
`orthBuffer`; an `"auto"` value is replaced by a size derived from the
arrowhead marker for that end (`max(2, ceil((size + orthBuffer)/orthBuffer))
* orthBuffer`, or `2 * orthBuffer` with no marker).  Any other value — even
a non-numeric one — is returned unchanged. -/
def getJettySize (state : EdgeState) (isSource : Bool) : SVal :=
  let value :=
    getValue state.style
      (if isSource then "sourceJettySize" else "targetJettySize")
      (getValue state.style "jettySize" (SVal.num orthBuffer))
  if value = SVal.str "auto" then
    let type :=
      getValue state.style (if isSource then "startArrow" else "endArrow")
        (SVal.str "none")
    if type ≠ SVal.str "none" then
      -- DEFAULT_MARKERSIZE of the missing mxConstants module is the
      -- standard marker size 6 (spec §4.2 "configured arrowhead marker
      -- size").
      let size := getNumber state.style
        (if isSource then "startSize" else "endSize") 6
      SVal.num ((max 2 (⌈(size + orthBuffer) / orthBuffer⌉ : ℤ) : ℤ) * orthBuffer)
    else
      SVal.num (2 * orthBuffer)
  else
    value

/-- `mxEdgeStyle.scalePointArray(points, scale)` (core.js 1050–1070): each
non-null point is divided by the scale and rounded to one decimal, null
entries pass through at their index. -/
def scalePointArray (points : List (Option MxPoint)) (scale : ℚ) :
    List (Option MxPoint) :=
  points.map (fun o => o.map (fun p =>
    ⟨round10 (p.x / scale), round10 (p.y / scale)⟩))

/-- `mxEdgeStyle.scaleCellState(state, scale)` (core.js 1083–1099): a clone
whose rectangle is divided by the scale and rounded to one decimal; all
other fields (style, cell) are those of the clone, hence unchanged. -/
def scaleCellState (state : Option CellState) (scale : ℚ) : Option CellState :=
  state.map (fun s =>
    { s with
      x := round10 (s.x / scale)
      y := round10 (s.y / scale)
      width := round10 (s.width / scale)
      height := round10 (s.height / scale) })

/-! ## Elbow connectors `SideToSide` / `TopToBottom` (core.js 441–586) -/

/-- `new mxCellState()` with only `x`/`y` assigned, as built when a fixed
endpoint replaces a terminal (core.js 452–462, 532–542).  The missing
`mxCellState` module zero-initialises the rectangle (spec §3: a cell state
is rectangle-backed), so width and height are 0. -/
def cellStateFromPoint (p : MxPoint) : CellState :=
  { x := p.x, y := p.y, width := 0, height := 0,
    style := fun _ => none, cellIsEdge := false, portConstraint := none }

/-- The first control point of the elbow connectors:
`points != null && points.length > 0 ? points[0] : null`, transformed by the
view when non-null. -/
def firstHint (state : EdgeState) (points : Option (List (Option MxPoint))) :
    Option MxPoint :=
  match points with
  | some (p :: _) => transformControlPoint state p
  | _ => none

/-- `state.absolutePoints[0]` as the elbow connectors read it (unscaled). -/
def absP0 (state : EdgeState) : Option MxPoint :=
  (state.absolutePoints.head?).getD none

/-- `state.absolutePoints[pts.length - 1]` (unscaled); `none` on an empty
list, where JavaScript reads the undefined index `-1`. -/
def absPe (state : EdgeState) : Option MxPoint :=
  (state.absolutePoints.getLast?).getD none

/-- The source terminal after substituting a fixed first point
(core.js 452–456). -/
def elbowSource (state : EdgeState) (source : Option CellState) :
    Option CellState :=
  match absP0 state with
  | some p => some (cellStateFromPoint p)
  | none => source

/-- The target terminal after substituting a fixed last point
(core.js 458–462). -/
def elbowTarget (state : EdgeState) (target : Option CellState) :
    Option CellState :=
  match absPe state with
  | some p => some (cellStateFromPoint p)
  | none => target

/-- `mxEdgeStyle.SideToSide(state, source, target, points, result)`
(core.js 441–513): a vertical elbow; the channel x-coordinate is the hint's
x or `Math.round(r + (l - r) / 2)`, and 0–2 points are appended depending
on the containment guards and on `result.length == 1`. -/
def SideToSide (state : EdgeState) (source₀ target₀ : Option CellState)
    (points : Option (List (Option MxPoint)))
    (result : List (Option MxPoint)) : List (Option MxPoint) :=
  let pt := firstHint state points
  let source := elbowSource state source₀
  let target := elbowTarget state target₀
  match source, target with
  | some s, some t =>
    let l := max s.x t.x
    let r := min (s.x + s.width) (t.x + t.width)
    let x : ℚ := match pt with
      | some p => p.x
      | none => (jsRound (r + (l - r) / 2) : ℚ)
    let y1 := match pt with
      | some p => if p.y ≥ s.y ∧ p.y ≤ s.y + s.height then p.y
                  else getRoutingCenterY s
      | none => getRoutingCenterY s
    let y2 := match pt with
      | some p => if p.y ≥ t.y ∧ p.y ≤ t.y + t.height then p.y
                  else getRoutingCenterY t
      | none => getRoutingCenterY t
    let res1 := if ¬ containsCS t x y1 ∧ ¬ containsCS s x y1
      then result ++ [some ⟨x, y1⟩] else result
    let res2 := if ¬ containsCS t x y2 ∧ ¬ containsCS s x y2
      then res1 ++ [some ⟨x, y2⟩] else res1
    if res2.length = 1 then
      match pt with
      | some p =>
        if ¬ containsCS t x p.y ∧ ¬ containsCS s x p.y
          then res2 ++ [some ⟨x, p.y⟩] else res2
      | none =>
        let tp := max s.y t.y
        let b := min (s.y + s.height) (t.y + t.height)
        res2 ++ [some ⟨x, tp + (b - tp) / 2⟩]
    else res2
  | _, _ => result

/-- `mxEdgeStyle.TopToBottom(state, source, target, points, result)`
(core.js 521–586): the horizontal elbow, mirror image of `SideToSide` with
channel y-coordinate `Math.round(b + (t - b) / 2)`. -/
def TopToBottom (state : EdgeState) (source₀ target₀ : Option CellState)
    (points : Option (List (Option MxPoint)))
    (result : List (Option MxPoint)) : List (Option MxPoint) :=
  let pt := firstHint state points
  let source := elbowSource state source₀
  let target := elbowTarget state target₀
  match source, target with
  | some s, some t =>
    let tp := max s.y t.y
    let b := min (s.y + s.height) (t.y + t.height)
    let x1 := match pt with
      | some p => if p.x ≥ s.x ∧ p.x ≤ s.x + s.width then p.x
                  else getRoutingCenterX s
      | none => getRoutingCenterX s
    let y : ℚ := match pt with
      | some p => p.y
      | none => (jsRound (b + (tp - b) / 2) : ℚ)
    let res1 := if ¬ containsCS t x1 y ∧ ¬ containsCS s x1 y
      then result ++ [some ⟨x1, y⟩] else result
    let x2 := match pt with
      | some p => if p.x ≥ t.x ∧ p.x ≤ t.x + t.width then p.x
                  else getRoutingCenterX t
      | none => getRoutingCenterX t
    let res2 := if ¬ containsCS t x2 y ∧ ¬ containsCS s x2 y
      then res1 ++ [some ⟨x2, y⟩] else res1
    if res2.length = 1 then
      match pt with
      | some p =>
        if ¬ containsCS t p.x y ∧ ¬ containsCS s p.x y
          then res2 ++ [some ⟨p.x, y⟩] else res2
      | none =>
        let l := max s.x t.x
        let r := min (s.x + s.width) (t.x + t.width)
        res2 ++ [some ⟨l + (r - l) / 2, y⟩]
    else res2
  | _, _ => result

/-! ## `SegmentConnector` (core.js 602–898)

The function threads three mutable locals through its body: the output
array `result` together with `lastPushed` (bundled below as an accumulator
pair), the current point `pt`, and the orientation flag `horizontal`.
Writing a coordinate of a null `pt` (possible when both the first fixed
point and the source terminal are absent, core.js 792–796) is a JavaScript
`TypeError`, modelled as `JsFault.nullDeref`. -/

/-- The faults a routing invocation can raise. -/
inductive JsFault where
  | nullDeref : JsFault
  | referenceError : JsFault
deriving DecidableEq, Repr

/-- `pushPoint(pt)` (core.js 624–638): scales and rounds the point, then
appends it unless it is within tolerance of `lastPushed` (x within 1 and y
within `max(1, scale)`). -/
def pushPoint (scale : ℚ) (acc : List (Option MxPoint) × Option MxPoint)
    (p : MxPoint) : List (Option MxPoint) × Option MxPoint :=
  let p' : MxPoint := ⟨round10 (p.x * scale), round10 (p.y * scale)⟩
  match acc.2 with
  | none => (acc.1 ++ [some p'], some p')
  | some lp =>
    if |lp.x - p'.x| ≥ 1 ∨ |lp.y - p'.y| ≥ max 1 scale then
      (acc.1 ++ [some p'], some p')
    else acc

/-- One iteration of the channel-alignment loop (core.js 712–772), which
runs for `i = 0` (source end) and `i = 1` (target end) unless it breaks. -/
structure SegAlignOut where
  horizontal : Bool
  broke : Bool
  hints : List MxPoint
  nextTerm : Option CellState
  nextPt : Option MxPoint
  nextHint : MxPoint

/-- The body of the alignment loop for one value of `i`.  The fields
`nextTerm`, `nextPt`, `nextHint` and the possibly-sliced `hints` are only
meaningful when the iteration did not break (`broke = false`); on a break
the hint list in force is the one passed in. -/
def segAlignIter (i : ℕ) (target : Option CellState) (peN : Option MxPoint)
    (hints : List MxPoint) (horizontal : Bool) (currentTerm : Option CellState)
    (currentPt : Option MxPoint) (currentHint : MxPoint) : SegAlignOut :=
  let fixedVertAlign : Bool := match currentPt with
    | some cp => decide (cp.x = currentHint.x)
    | none => false
  let fixedHozAlign : Bool := match currentPt with
    | some cp => decide (cp.y = currentHint.y)
    | none => false
  let inHozChan : Bool := match currentTerm with
    | some ct => decide (currentHint.y ≥ ct.y ∧ currentHint.y ≤ ct.y + ct.height)
    | none => false
  let inVertChan : Bool := match currentTerm with
    | some ct => decide (currentHint.x ≥ ct.x ∧ currentHint.x ≤ ct.x + ct.width)
    | none => false
  let hozChan := fixedHozAlign || (currentPt.isNone && inHozChan)
  let vertChan := fixedVertAlign || (currentPt.isNone && inVertChan)
  let fallThrough : SegAlignOut :=
    { horizontal := horizontal
      broke := false
      hints := if fixedVertAlign && fixedHozAlign then hints.drop 1 else hints
      nextTerm := if peN.isSome then none else target
      nextPt := peN
      nextHint := (hints.getLast?).getD currentHint }
  if i == 0 && ((hozChan && vertChan) || (fixedVertAlign && fixedHozAlign)) then
    fallThrough
  else if currentPt.isSome && !fixedHozAlign && !fixedVertAlign &&
      (inHozChan || inVertChan) then
    { horizontal := ! inHozChan, broke := true, hints := hints,
      nextTerm := currentTerm, nextPt := currentPt, nextHint := currentHint }
  else if vertChan || hozChan then
    { horizontal :=
        if i == 1 then
          (if hints.length % 2 == 0 then hozChan else vertChan)
        else hozChan
      broke := true, hints := hints,
      nextTerm := currentTerm, nextPt := currentPt, nextHint := currentHint }
  else
    fallThrough

/-- The part of `SegmentConnector` after the waypoint section
(core.js 819–897): the final approach pushes, the two prune loops for
points inside the terminals, and the tolerance collapse onto the end
point.  Pure: no fault sites remain here. -/
def segmentTail (scale : ℚ) (source target : Option CellState)
    (p0 peN : Option MxPoint) (hintM : Option MxPoint) (horizontal : Bool)
    (acc : List (Option MxPoint) × Option MxPoint) : List (Option MxPoint) :=
  let ptD : Option MxPoint := match peN, target with
    | some p, _ => some p
    | none, some t => some ⟨getRoutingCenterX t, getRoutingCenterY t⟩
    | none, none => none
  let acc' := match ptD, hintM with
    | some pD, some hM =>
      let c832 : Bool := horizontal && (match peN with
        | some pp => decide (pp.y ≠ hM.y)
        | none => match target with
          | some t => decide (hM.y < t.y ∨ hM.y > t.y + t.height)
          | none => false)
      let c841 : Bool := !horizontal && (match peN with
        | some pp => decide (pp.x ≠ hM.x)
        | none => match target with
          | some t => decide (hM.x < t.x ∨ hM.x > t.x + t.width)
          | none => false)
      if c832 then pushPoint scale acc ⟨pD.x, hM.y⟩
      else if c841 then pushPoint scale acc ⟨hM.x, pD.y⟩
      else acc
    | _, _ => acc
  let res0 := acc'.1
  let res1 := if p0 = none then
      match source with
      | some s =>
        (match res0 with
         | r0 :: rest =>
           r0 :: rest.dropWhile (fun op => match op with
             | some p => decide (containsCS s p.x p.y)
             | none => false)
         | [] => [])
      | none => res0
    else res0
  let res2 := if peN = none then
      match target with
      | some t =>
        (match res1 with
         | r0 :: rest =>
           r0 :: ((rest.reverse.dropWhile (fun op => match op with
             | some p => decide (containsCS t p.x p.y)
             | none => false)).reverse)
         | [] => [])
      | none => res1
    else res1
  match peN with
  | none => res2
  | some pe =>
    match res2.getLast? with
    | some (some q) =>
      if |pe.x - q.x| ≤ 1 ∧ |pe.y - q.y| ≤ 1 then
        let r' := res2.dropLast
        match r'.getLast? with
        | some (some q2) =>
          r'.dropLast ++
            [some ⟨if |q2.x - pe.x| < 1 then pe.x else q2.x,
                   if |q2.y - pe.y| < 1 then pe.y else q2.y⟩]
        | some none => r'
        | none => r'
      else res2
    | some none => res2
    | none => res2

/-- `controlHints != null && controlHints.length > 0`. -/
def hintsSupplied (controlHints : Option (List (Option MxPoint))) : Bool :=
  match controlHints with
  | some l => decide (l.length > 0)
  | none => false

/-- `mxEdgeStyle.SegmentConnector(state, sourceScaled, targetScaled,
controlHints, result)` (core.js 602–898). -/
def SegmentConnector (state : EdgeState)
    (sourceScaled targetScaled : Option CellState)
    (controlHints : Option (List (Option MxPoint)))
    (result : List (Option MxPoint)) :
    Except JsFault (List (Option MxPoint)) :=
  let scale := state.scale
  let pts := scalePointArray state.absolutePoints scale
  let source := scaleCellState sourceScaled scale
  let target := scaleCellState targetScaled scale
  -- `lastPushed = result.length > 0 ? result[0] : null` (core.js 619).
  let lastPushed₀ : Option MxPoint := (result.head?).getD none
  let p0 := (pts.head?).getD none
  -- The clone of `pts[0]`, or the source routing center for a floating
  -- source port (core.js 641–650).
  let ptA : Option MxPoint := match p0, source with
    | none, some s => some ⟨getRoutingCenterX s, getRoutingCenterY s⟩
    | none, none => none
    | some p, _ => some p
  -- `pts[lastInx]` (core.js 652, 686, 820, 833, 878); on an empty list the
  -- JavaScript index -1 is undefined.
  let peN : Option MxPoint := (pts.getLast?).getD none
  if hintsSupplied controlHints then
    -- Converts all hints and removes nulls (core.js 657–669).
    let hints₀ := (controlHints.getD []).filterMap
      (fun o => transformControlPoint state o)
    -- Aligns the first hint to the fixed source point (core.js 676–684)
    -- and the last one to the fixed end point (core.js 686–696).  On an
    -- empty hint list both alignment blocks are no-ops, so performing them
    -- before the `hints.length == 0` early return (core.js 671–673) is
    -- equivalent.
    let hints₁ := match ptA, p0 with
      | some p, some _ =>
        (match hints₀ with
         | h :: t =>
           (⟨if |h.x - p.x| < 1 then p.x else h.x,
             if |h.y - p.y| < 1 then p.y else h.y⟩ : MxPoint) :: t
         | [] => [])
      | _, _ => hints₀
    let hints₂ := match peN with
      | some pe =>
        (match hints₁.getLast? with
         | some hl =>
           hints₁.dropLast ++
             [(⟨if |hl.x - pe.x| < 1 then pe.x else hl.x,
                if |hl.y - pe.y| < 1 then pe.y else hl.y⟩ : MxPoint)]
         | none => hints₁)
      | none => hints₁
    match hints₂ with
    | [] => Except.ok result
    | h0 :: _ =>
      -- Channel alignment at the source and target segments
      -- (core.js 698–772).
      let ct0 : Option CellState := if p0.isSome then none else source
      let it0 := segAlignIter 0 target peN hints₂ true ct0 p0 h0
      let after :=
        if it0.broke then (it0.horizontal, hints₂)
        else
          let it1 := segAlignIter 1 target peN it0.hints it0.horizontal
            it0.nextTerm it0.nextPt it0.nextHint
          if it1.broke then (it1.horizontal, it0.hints)
          else (it1.horizontal, it1.hints)
      let horizF := after.1
      let hintsF := after.2
      -- First-approach push (core.js 774–790).
      let c774 : Bool := horizF && (match p0 with
        | some p => decide (p.y ≠ h0.y)
        | none => match source with
          | some s => decide (h0.y < s.y ∨ h0.y > s.y + s.height)
          | none => false)
      let c784 : Bool := !horizF && (match p0 with
        | some p => decide (p.x ≠ h0.x)
        | none => match source with
          | some s => decide (h0.x < s.x ∨ h0.x > s.x + s.width)
          | none => false)
      let acc0 := (result, lastPushed₀)
      match
        (if c774 then
          match ptA with
          | some p => Except.ok (pushPoint scale acc0 ⟨p.x, h0.y⟩)
          | none => Except.error JsFault.nullDeref
        else if c784 then
          match ptA with
          | some p => Except.ok (pushPoint scale acc0 ⟨h0.x, p.y⟩)
          | none => Except.error JsFault.nullDeref
        else Except.ok acc0 :
          Except JsFault (List (Option MxPoint) × Option MxPoint)) with
      | Except.error e => Except.error e
      | Except.ok acc1 =>
        -- `pt.y = hint.y` / `pt.x = hint.x` (core.js 792–796): a TypeError
        -- when `pt` is null.
        match ptA with
        | none => Except.error JsFault.nullDeref
        | some pA =>
          let ptB : MxPoint :=
            if horizF then ⟨pA.x, h0.y⟩ else ⟨h0.x, pA.y⟩
          -- The waypoint loop (core.js 798–812).
          let loopOut := hintsF.foldl
            (fun (st : Bool × MxPoint × (List (Option MxPoint) × Option MxPoint)) hn =>
              let h' := ! st.1
              let p' : MxPoint :=
                if h' then ⟨st.2.1.x, hn.y⟩ else ⟨hn.x, st.2.1.y⟩
              (h', p', pushPoint scale st.2.2 p'))
            (horizF, ptB, acc1)
          let hintAfter := (hintsF.getLast?).getD h0
          Except.ok (segmentTail scale source target p0 peN
            (some hintAfter) loopOut.1 loopOut.2.2)
  else
    -- No waypoints: `hint = pt; horizontal = true` (core.js 813–817) and
    -- straight to the last-point section.
    Except.ok (segmentTail scale source target p0 peN ptA true
      (result, lastPushed₀))

/-! ## The orthogonal router `OrthConnector` (core.js 1117–1691)

`mxEdgeStyle` keeps three process-wide scratch buffers that the router
reuses across invocations: `wayPoints1` (12 coordinate pairs), `limits`
(2 × 9 numbers) and `vertexSeperations`.  They are modelled as a `Scratch`
record holding the contents the buffers have when the invocation starts, so
that the determinism claim about them is expressible. -/

/-- The shared mutable scratch buffers of `mxEdgeStyle`
(core.js 914–927, 962–967). -/
structure Scratch where
  wayPoints1 : ℕ → ℚ × ℚ
  limits : ℕ → ℕ → ℚ
  vertexSeperations : ℕ → ℚ

/-- The literal initial contents of the buffers: `wayPoints1` is twelve
zero pairs, `limits` two rows of nine zeros, `vertexSeperations` an empty
array (reads of never-written entries are modelled as 0). -/
def defaultScratch : Scratch :=
  { wayPoints1 := fun _ => (0, 0), limits := fun _ _ => 0,
    vertexSeperations := fun _ => 0 }

/-- JavaScript 32-bit left shift (`<<`), as used by the direction-preference
compaction: bits shifted past bit 31 are dropped.  (No reachable value here
ever sets bit 31, so signedness never matters.) -/
def jsShl32 (x n : ℕ) : ℕ := (x <<< n) % 4294967296

/-- Writes the limit overlays of this invocation over the scratch `limits`
rows (core.js 1262–1267): entries 1, 2, 4, 8 of rows 0 and 1 hold the
buffered bounds of source and target; all other entries keep whatever the
scratch held. -/
def limitsOf (scratch : Scratch) (geo : ℕ → MxRect) (buffer : ℕ → ℚ) :
    ℕ → ℕ → ℚ := fun i j =>
  if 2 ≤ i then scratch.limits i j
  else if j = 1 then (geo i).x - buffer i
  else if j = 2 then (geo i).y - buffer i
  else if j = 4 then (geo i).x + (geo i).width + buffer i
  else if j = 8 then (geo i).y + (geo i).height + buffer i
  else scratch.limits i j

/-- Writes the vertex-separation overlays of this invocation
(core.js 1346–1358): entries 1 (left), 2 (top), 3 (right), 4 (bottom). -/
def vertexSepOf (scratch : Scratch) (v1 v2 v3 v4 : ℚ) : ℕ → ℚ := fun j =>
  if j = 1 then v1
  else if j = 2 then v2
  else if j = 3 then v3
  else if j = 4 then v4
  else scratch.vertexSeperations j

/-- The quadrant of the target relative to the source (core.js 1278–1299),
from `dx = sourceCenX - targetCenX` and `dy = sourceCenY - targetCenY`. -/
def quadOf (dx dy : ℚ) : ℕ :=
  if dx < 0 then (if dy < 0 then 2 else 1)
  else (if dy ≤ 0 then (if dx = 0 then 2 else 3) else 0)

/-- The fixed-point constraint fractions and derived direction for one
endpoint (core.js 1315–1339): when the endpoint has a fixed connection
point, the fractional position along each axis, and the west/east then
north/south edge tests with 1-unit tolerance (the later vertical test
overwrites the horizontal one).  Division by a zero width or height, which
JavaScript turns into an infinite fraction, is the total `ℚ` division
(zero); no claim under verification exercises that corner. -/
def termDirConstraint (cp : Option MxPoint) (g : MxRect) : ℚ × ℚ × ℕ :=
  match cp with
  | none => (1/2, 1/2, 0)
  | some p =>
    let cx := (p.x - g.x) / g.width
    let d1 := if |p.x - g.x| ≤ 1 then DIRECTION_MASK_WEST
      else if |p.x - g.x - g.width| ≤ 1 then DIRECTION_MASK_EAST
      else 0
    let cy := (p.y - g.y) / g.height
    let d2 := if |p.y - g.y| ≤ 1 then DIRECTION_MASK_NORTH
      else if |p.y - g.y - g.height| ≤ 1 then DIRECTION_MASK_SOUTH
      else d1
    (cx, cy, d2)

/-- The direction-preference compaction for one endpoint
(core.js 1454–1480): packs the four candidate masks into one 32-bit word
(JavaScript shifts), closes the gaps, and keeps the low nibble. -/
def dirCompact (poI0 poI1 poJI poJOther pc : ℕ) : ℕ :=
  let first := if poI0 &&& pc = 0 then poI1 else poI0
  let dp := (first &&& pc) ||| jsShl32 (poI1 &&& pc) 8 |||
    jsShl32 (poJI &&& pc) 16 ||| jsShl32 (poJOther &&& pc) 24
  let dp := if dp &&& 0xf = 0 then jsShl32 dp 8 else dp
  let dp := if dp &&& 0xf00 = 0 then (dp &&& 0xf) ||| (dp >>> 8) else dp
  let dp := if dp &&& 0xf0000 = 0 then
      (dp &&& 0xffff) ||| ((dp &&& 0xf000000) >>> 8)
    else dp
  dp &&& 0xf

/-- The state the pattern-execution loop threads (core.js 1536–1545):
`currentIndex`, the way-point buffer contents, and `lastOrientation`. -/
structure OrthLoopState where
  ci : ℕ
  wp : ℕ → ℚ × ℚ
  lastOrientation : ℕ

/-- Point-wise update of the way-point buffer. -/
def wpWrite (wp : ℕ → ℚ × ℚ) (i : ℕ) (v : ℚ × ℚ) : ℕ → ℚ × ℚ :=
  fun j => if j = i then v else wp j

/-- `wayPoints1[k][o]`: component 0 is x, component 1 is y. -/
def wpComp (p : ℚ × ℚ) (o : ℕ) : ℚ := if o = 0 then p.1 else p.2

/-- The direction index a pattern step resolves to (core.js 1549–1556):
the step's direction nibble, east remapped to 3, rotated by the quadrant
and folded into range.  Shared by `dirLookup` and `codeSafeB`. -/
def diOf (code quad : ℕ) : ℕ :=
  let nextDirection := code &&& 0xf
  let di₀ := if nextDirection = DIRECTION_MASK_EAST then 3 else nextDirection
  let di₁ := di₀ + quad
  if di₁ > 4 then di₁ - 4 else di₁

/-- The side nibble a pattern step addresses after quadrant rotation
(core.js 1590–1596). -/
def sideOf (code quad : ℕ) : ℕ :=
  let side₀ := (code &&& SIDE_MASK) >>> 5
  let side₁ := side₀ <<< quad
  if side₁ > 0xf then side₁ >>> 4 else side₁

/-- One step of the pattern-execution loop after the direction vector has
been resolved (core.js 1564–1637). -/
def orthStepCore (quad : ℕ) (geo : ℕ → MxRect) (constraintF : ℕ → ℚ × ℚ)
    (L : ℕ → ℕ → ℚ) (V : ℕ → ℚ) (st : OrthLoopState) (code : ℕ)
    (direction : ℚ × ℚ) (directionIndex : ℕ) : OrthLoopState :=
  let currentOrientation : ℕ := if directionIndex % 2 > 0 then 0 else 1
  let ci := if currentOrientation ≠ st.lastOrientation then st.ci + 1 else st.ci
  let wp := if currentOrientation ≠ st.lastOrientation then
      wpWrite st.wp (st.ci + 1) (st.wp st.ci)
    else st.wp
  let tar := code &&& TARGET_MASK > 0
  let sou := code &&& SOURCE_MASK > 0
  let side := sideOf code quad
  let center := code &&& CENTER_MASK > 0
  let wp' :=
    if (sou ∨ tar) ∧ side < 9 then
      let souTar := if sou then 0 else 1
      let limit :=
        if center ∧ currentOrientation = 0 then
          (geo souTar).x + (constraintF souTar).1 * (geo souTar).width
        else if center then
          (geo souTar).y + (constraintF souTar).2 * (geo souTar).height
        else L souTar side
      if currentOrientation = 0 then
        let lastX := (wp ci).1
        let deltaX := (limit - lastX) * direction.1
        if deltaX > 0 then
          wpWrite wp ci ((wp ci).1 + direction.1 * deltaX, (wp ci).2)
        else wp
      else
        let lastY := (wp ci).2
        let deltaY := (limit - lastY) * direction.2
        if deltaY > 0 then
          wpWrite wp ci ((wp ci).1, (wp ci).2 + direction.2 * deltaY)
        else wp
    else if center then
      wpWrite wp ci
        ((wp ci).1 + direction.1 * |V directionIndex / 2|,
         (wp ci).2 + direction.2 * |V directionIndex / 2|)
    else wp
  if ci > 0 ∧
      wpComp (wp' ci) currentOrientation = wpComp (wp' (ci - 1)) currentOrientation
  then { ci := ci - 1, wp := wp', lastOrientation := st.lastOrientation }
  else { ci := ci, wp := wp', lastOrientation := currentOrientation }

/-- The direction resolution of one pattern step (core.js 1549–1562): the
step's direction nibble, east remapped to 3, rotated by the quadrant and
folded into range, then looked up in `dirVectors`; `none` when the
JavaScript index would be out of range (an undefined read whose use
faults). -/
def dirLookup (code quad : ℕ) : Option ((ℚ × ℚ) × ℕ) :=
  match diOf code quad with
  | 0 => none
  | d + 1 => (dirVectors.get? d).map (fun v => (v, d + 1))

/-- One step of the pattern-execution loop (core.js 1548–1638). -/
def orthStep (quad : ℕ) (geo : ℕ → MxRect) (constraintF : ℕ → ℚ × ℚ)
    (L : ℕ → ℕ → ℚ) (V : ℕ → ℚ) (st : OrthLoopState) (code : ℕ) :
    Except JsFault OrthLoopState :=
  match dirLookup code quad with
  | none => Except.error JsFault.nullDeref
  | some (v, di) => Except.ok (orthStepCore quad geo constraintF L V st code v di)

/-- The pattern-execution loop: `orthStep` over the selected route pattern's
codes in order. -/
def orthRun (quad : ℕ) (geo : ℕ → MxRect) (constraintF : ℕ → ℚ × ℚ)
    (L : ℕ → ℕ → ℚ) (V : ℕ → ℚ) :
    List ℕ → OrthLoopState → Except JsFault OrthLoopState
  | [], st => Except.ok st
  | c :: cs, st =>
    match orthStep quad geo constraintF L V st c with
    | Except.error e => Except.error e
    | Except.ok st' => orthRun quad geo constraintF L V cs st'

/-- A way point as emitted: scaled back and rounded to one decimal
(core.js 1666–1671). -/
def roundScaledPoint (p : ℚ × ℚ) (scale : ℚ) : MxPoint :=
  ⟨round10 (p.1 * scale), round10 (p.2 * scale)⟩

/-- The emission loop (core.js 1640–1672): pushes way points 0 through
`currentIndex`, except that the loop breaks just before the final one when
`sameOrient != (currentIndex + 1) % 2`. -/
def emitWayPoints (wp : ℕ → ℚ × ℚ) (ci : ℕ) (sameOrient : ℕ) (scale : ℚ) :
    List (Option MxPoint) :=
  (List.range (ci + 1)).filterMap (fun i =>
    if i = ci ∧ sameOrient ≠ (ci + 1) % 2 then none
    else some (some (roundScaledPoint (wp i) scale)))

/-- Two consecutive entries that the duplicate-removal pass deletes: both
non-null with equal coordinates (core.js 1680–1685 keeps the pair when
either is null or a coordinate differs). -/
def adjacentDuplicate : Option MxPoint → Option MxPoint → Bool
  | some p, some q => decide (p.x = q.x) && decide (p.y = q.y)
  | _, _ => false

/-- The final duplicate-removal pass (core.js 1676–1691): walks the result
and splices out an entry equal to its predecessor. -/
def removeDuplicates : List (Option MxPoint) → List (Option MxPoint)
  | [] => []
  | [a] => [a]
  | a :: b :: rest =>
    if adjacentDuplicate a b then removeDuplicates (a :: rest)
    else a :: removeDuplicates (b :: rest)
termination_by l => l.length

/-- `l[i]` with a JavaScript-style signed index: out of range is undefined,
whose use faults at the caller. -/
def jsIndexZ {α : Type} (l : List α) (i : ℤ) : Option α :=
  if i < 0 then none else l.get? i.toNat

/-- Everything `OrthConnector` computes before deciding between the
segment-connector fallback and the orthogonal route (core.js 1124–1171). -/
structure OrthPreludeData where
  source : Option CellState
  target : Option CellState
  sourceEdge : Bool
  targetEdge : Bool
  p0 : Option MxPoint
  pe : Option MxPoint
  sourceX : ℚ
  sourceY : ℚ
  sourceWidth : ℚ
  sourceHeight : ℚ
  targetX : ℚ
  targetY : ℚ
  targetWidth : ℚ
  targetHeight : ℚ
  sourceBuffer : ℚ
  targetBuffer : ℚ
  totalBuffer : ℚ
  tooShort : Bool

/-- The entry of `OrthConnector` (core.js 1124–1171).  The literal source
reads `source` and `target` for the edge flags inside their temporal dead
zone (see `orthEntrySourceEdge` below); per the spec's correctness note the
intended entry is modelled: the flags come from the already-scaled cell
states (scaling clones the state, so the flag equals that of the unscaled
terminal).  `source.x : p0.x` with both null is a JavaScript `TypeError`.
The self-loop buffer widening (core.js 1156–1159) compares the two scaled
states with `==`: `scaleCellState` returns a fresh clone per call, so the
two non-null clones are never the same object and the branch never fires;
it is therefore omitted.  `totalBuffer = targetBuffer + sourceBuffer` and
`tooShort` compares the squared fixed-endpoint distance against its
square. -/
def orthPrelude (state : EdgeState)
    (sourceScaled targetScaled : Option CellState) :
    Except JsFault OrthPreludeData :=
  let pts := scalePointArray state.absolutePoints state.scale
  let source := scaleCellState sourceScaled state.scale
  let target := scaleCellState targetScaled state.scale
  let sourceEdge := (source.map (fun s => s.cellIsEdge)).getD false
  let targetEdge := (target.map (fun s => s.cellIsEdge)).getD false
  let p0 := (pts.head?).getD none
  let pe := (pts.getLast?).getD none
  match (match source, p0 with
         | some s, _ => Except.ok (s.x, s.y)
         | none, some p => Except.ok (p.x, p.y)
         | none, none => Except.error JsFault.nullDeref :
           Except JsFault (ℚ × ℚ)) with
  | Except.error e => Except.error e
  | Except.ok sxy =>
    match (match target, pe with
           | some t, _ => Except.ok (t.x, t.y)
           | none, some p => Except.ok (p.x, p.y)
           | none, none => Except.error JsFault.nullDeref :
             Except JsFault (ℚ × ℚ)) with
    | Except.error e => Except.error e
    | Except.ok txy =>
      let sourceBuffer := svalNum (getJettySize state true)
      let targetBuffer := svalNum (getJettySize state false)
      let totalBuffer := targetBuffer + sourceBuffer
      let tooShort : Bool := match p0, pe with
        | some a, some b =>
          decide ((b.x - a.x) * (b.x - a.x) + (b.y - a.y) * (b.y - a.y) <
            totalBuffer * totalBuffer)
        | _, _ => false
      Except.ok
        { source := source, target := target,
          sourceEdge := sourceEdge, targetEdge := targetEdge,
          p0 := p0, pe := pe,
          sourceX := sxy.1, sourceY := sxy.2,
          sourceWidth := (source.map (fun s => s.width)).getD 0,
          sourceHeight := (source.map (fun s => s.height)).getD 0,
          targetX := txy.1, targetY := txy.2,
          targetWidth := (target.map (fun t => t.width)).getD 0,
          targetHeight := (target.map (fun t => t.height)).getD 0,
          sourceBuffer := sourceBuffer, targetBuffer := targetBuffer,
          totalBuffer := totalBuffer, tooShort := tooShort }

/-- The fallback test of `OrthConnector` (core.js 1173–1180): too short, or
control hints supplied (with `orthPointsFallback` set), or either terminal
is itself an edge. -/
def delegCond (pd : OrthPreludeData)
    (controlHints : Option (List (Option MxPoint))) : Bool :=
  pd.tooShort || (orthPointsFallback && hintsSupplied controlHints) ||
    pd.sourceEdge || pd.targetEdge

/-- The tail of `OrthConnector` whose inputs the scratch buffers can reach:
route-pattern lookup (core.js 1509–1510; a JavaScript undefined row or
pattern faults when used), pattern execution, and emission followed by the
duplicate-removal pass. -/
def orthFinish (quad : ℕ) (geoF : ℕ → MxRect) (constraintF : ℕ → ℚ × ℚ)
    (L : ℕ → ℕ → ℚ) (V : ℕ → ℚ) (wpInit : ℕ → ℚ × ℚ)
    (initialOrientation : ℕ) (si ti : ℤ) (sameOrient : ℕ) (scale : ℚ)
    (result : List (Option MxPoint)) : Except JsFault (List (Option MxPoint)) :=
  match jsIndexZ routePatterns (si - 1) with
  | none => Except.error JsFault.nullDeref
  | some row =>
    match jsIndexZ row (ti - 1) with
    | none => Except.error JsFault.nullDeref
    | some routePattern =>
      match orthRun quad geoF constraintF L V routePattern
          ⟨0, wpInit, initialOrientation⟩ with
      | Except.error e => Except.error e
      | Except.ok fin =>
        Except.ok (removeDuplicates
          (result ++ emitWayPoints fin.wp fin.ci sameOrient scale))

/-- The orthogonal route of `OrthConnector` once the fallback has been
declined (core.js 1192–1691): port constraints and rotation adjustment,
quadrant, fixed-point constraints, vertex separations, direction
preference and compaction, route-pattern indexes, way-point seed, then
`orthFinish`. -/
def orthMain (scratch : Scratch) (bbox : MxRect → ℚ → MxRect)
    (state : EdgeState) (pd : OrthPreludeData)
    (result : List (Option MxPoint)) : Except JsFault (List (Option MxPoint)) :=
  let pc0 := match pd.source with
    | some s => getPortConstraints s state.style true DIRECTION_MASK_ALL
    | none => DIRECTION_MASK_ALL
  let pc1 := match pd.target with
    | some t => getPortConstraints t state.style false DIRECTION_MASK_ALL
    | none => DIRECTION_MASK_ALL
  -- Rotation: the axis-aligned bounding box under the style rotation
  -- (core.js 1212–1221, 1235–1244); `mxUtils.getBoundingBox` is not under
  -- src/ and needs trigonometry, so it enters as the oracle `bbox`.
  let sRect : MxRect := match pd.source with
    | some s =>
      let rot := svalNum (getValue s.style "rotation" (SVal.num 0))
      if rot ≠ 0 then
        bbox ⟨pd.sourceX, pd.sourceY, pd.sourceWidth, pd.sourceHeight⟩ rot
      else ⟨pd.sourceX, pd.sourceY, pd.sourceWidth, pd.sourceHeight⟩
    | none => ⟨pd.sourceX, pd.sourceY, pd.sourceWidth, pd.sourceHeight⟩
  let tRect : MxRect := match pd.target with
    | some t =>
      let rot := svalNum (getValue t.style "rotation" (SVal.num 0))
      if rot ≠ 0 then
        bbox ⟨pd.targetX, pd.targetY, pd.targetWidth, pd.targetHeight⟩ rot
      else ⟨pd.targetX, pd.targetY, pd.targetWidth, pd.targetHeight⟩
    | none => ⟨pd.targetX, pd.targetY, pd.targetWidth, pd.targetHeight⟩
  let geoF : ℕ → MxRect := fun i => if i = 0 then sRect else tRect
  let bufF : ℕ → ℚ := fun i => if i = 0 then pd.sourceBuffer else pd.targetBuffer
  let limitsF := limitsOf scratch geoF bufF
  let quad := quadOf (sRect.x + sRect.width / 2 - (tRect.x + tRect.width / 2))
    (sRect.y + sRect.height / 2 - (tRect.y + tRect.height / 2))
  let sc := termDirConstraint (if pd.source.isSome then pd.p0 else none) sRect
  let tc := termDirConstraint (if pd.target.isSome then pd.pe else none) tRect
  let dir0₀ := sc.2.2
  let dir1₀ := tc.2.2
  let constraintF : ℕ → ℚ × ℚ := fun i =>
    if i = 0 then (sc.1, sc.2.1) else (tc.1, tc.2.1)
  let sourceTopDist := sRect.y - (tRect.y + tRect.height)
  let sourceLeftDist := sRect.x - (tRect.x + tRect.width)
  let sourceBottomDist := tRect.y - (sRect.y + sRect.height)
  let sourceRightDist := tRect.x - (sRect.x + sRect.width)
  let vertexSepF := vertexSepOf scratch
    (max (sourceLeftDist - pd.totalBuffer) 0)
    (max (sourceTopDist - pd.totalBuffer) 0)
    (max (sourceRightDist - pd.totalBuffer) 0)
    (max (sourceBottomDist - pd.totalBuffer) 0)
  let horPref0₀ := if sourceLeftDist ≥ sourceRightDist
    then DIRECTION_MASK_WEST else DIRECTION_MASK_EAST
  let vertPref0₀ := if sourceTopDist ≥ sourceBottomDist
    then DIRECTION_MASK_NORTH else DIRECTION_MASK_SOUTH
  let horPref1₀ := reversePortConstraints horPref0₀
  let vertPref1₀ := reversePortConstraints vertPref0₀
  let preferredHorizDist := if sourceLeftDist ≥ sourceRightDist
    then sourceLeftDist else sourceRightDist
  let preferredVertDist := if sourceTopDist ≥ sourceBottomDist
    then sourceTopDist else sourceBottomDist
  -- "If the preferred port isn't available, switch it" (core.js 1394–1409);
  -- endpoints with a fixed direction are skipped by the `continue`.
  let horPref0 := if dir0₀ ≠ 0 then horPref0₀
    else if horPref0₀ &&& pc0 = 0 then reversePortConstraints horPref0₀
    else horPref0₀
  let vertPref0 := if dir0₀ ≠ 0 then vertPref0₀
    else if vertPref0₀ &&& pc0 = 0 then reversePortConstraints vertPref0₀
    else vertPref0₀
  let horPref1 := if dir1₀ ≠ 0 then horPref1₀
    else if horPref1₀ &&& pc1 = 0 then reversePortConstraints horPref1₀
    else horPref1₀
  let vertPref1 := if dir1₀ ≠ 0 then vertPref1₀
    else if vertPref1₀ &&& pc1 = 0 then reversePortConstraints vertPref1₀
    else vertPref1₀
  -- `prefOrdering` as (po00, po01, po10, po11): the loop defaults
  -- (core.js 1407–1408), possibly replaced by the two-segment or
  -- single-axis orderings (core.js 1411–1448).
  let po : ℕ × ℕ × ℕ × ℕ :=
    if preferredVertDist > 0 ∧ preferredHorizDist > 0 ∧
        horPref0 &&& pc0 > 0 ∧ vertPref1 &&& pc1 > 0 then
      (horPref0, vertPref0, vertPref1, horPref1)
    else if preferredVertDist > 0 ∧ preferredHorizDist > 0 ∧
        vertPref0 &&& pc0 > 0 ∧ horPref1 &&& pc1 > 0 then
      (vertPref0, horPref0, horPref1, vertPref1)
    else if preferredVertDist > 0 then
      (vertPref0, horPref0, vertPref1, horPref1)
    else if preferredHorizDist > 0 then
      (horPref0, vertPref0, horPref1, vertPref1)
    else
      (if dir0₀ ≠ 0 then 0 else vertPref0, if dir0₀ ≠ 0 then 0 else horPref0,
       if dir1₀ ≠ 0 then 0 else vertPref1, if dir1₀ ≠ 0 then 0 else horPref1)
  let dir0 := if dir0₀ ≠ 0 then dir0₀
    else if pc0 = DIRECTION_MASK_WEST ∨ pc0 = DIRECTION_MASK_NORTH ∨
        pc0 = DIRECTION_MASK_EAST ∨ pc0 = DIRECTION_MASK_SOUTH then pc0
    else dirCompact po.1 po.2.1 po.2.2.1 po.2.2.2 pc0
  let dir1 := if dir1₀ ≠ 0 then dir1₀
    else if pc1 = DIRECTION_MASK_WEST ∨ pc1 = DIRECTION_MASK_NORTH ∨
        pc1 = DIRECTION_MASK_EAST ∨ pc1 = DIRECTION_MASK_SOUTH then pc1
    else dirCompact po.2.2.1 po.2.2.2 po.2.1 po.1 pc1
  let si₁ : ℤ := (if dir0 = DIRECTION_MASK_EAST then 3 else (dir0 : ℤ)) - quad
  let ti₁ : ℤ := (if dir1 = DIRECTION_MASK_EAST then 3 else (dir1 : ℤ)) - quad
  let si := if si₁ < 1 then si₁ + 4 else si₁
  let ti := if ti₁ < 1 then ti₁ + 4 else ti₁
  -- The way-point seed (core.js 1514–1534).
  let start : ℚ × ℚ :=
    if dir0 = DIRECTION_MASK_WEST then
      (sRect.x - pd.sourceBuffer, sRect.y + sc.2.1 * sRect.height)
    else if dir0 = DIRECTION_MASK_SOUTH then
      (sRect.x + sc.1 * sRect.width, sRect.y + sRect.height + pd.sourceBuffer)
    else if dir0 = DIRECTION_MASK_EAST then
      (sRect.x + sRect.width + pd.sourceBuffer, sRect.y + sc.2.1 * sRect.height)
    else if dir0 = DIRECTION_MASK_NORTH then
      (sRect.x + sc.1 * sRect.width, sRect.y - pd.sourceBuffer)
    else (sRect.x, sRect.y)
  let wpInit : ℕ → ℚ × ℚ := fun j => if j = 0 then start else scratch.wayPoints1 j
  let initialOrientation : ℕ :=
    if dir0 &&& (DIRECTION_MASK_EAST ||| DIRECTION_MASK_WEST) > 0 then 0 else 1
  let targetOrientation : ℕ :=
    if dir1 &&& (DIRECTION_MASK_EAST ||| DIRECTION_MASK_WEST) > 0 then 0 else 1
  let sameOrient : ℕ := if targetOrientation = initialOrientation then 0 else 1
  orthFinish quad geoF constraintF limitsF vertexSepF wpInit
    initialOrientation si ti sameOrient state.scale result

/-- `mxEdgeStyle.OrthConnector(state, sourceScaled, targetScaled,
controlHints, result)` (core.js 1117–1691), with the intended entry (see
`orthPrelude`): the prelude, the fallback delegation to `SegmentConnector`,
or the orthogonal route. -/
def OrthConnector (scratch : Scratch) (bbox : MxRect → ℚ → MxRect)
    (state : EdgeState) (sourceScaled targetScaled : Option CellState)
    (controlHints : Option (List (Option MxPoint)))
    (result : List (Option MxPoint)) : Except JsFault (List (Option MxPoint)) :=
  match orthPrelude state sourceScaled targetScaled with
  | Except.error e => Except.error e
  | Except.ok pd =>
    if delegCond pd controlHints then
      SegmentConnector state sourceScaled targetScaled controlHints result
    else orthMain scratch bbox state pd result

/-! ## The literal entry of `OrthConnector` (core.js 1124–1135)

The source reads `let sourceEdge = source == null ? false : ...isEdge(
source.cell)` at line 1126 while `source` is declared by the `let` at line
1134: the read is inside the temporal dead zone of the binding, which is a
JavaScript `ReferenceError` thrown before anything else happens. -/

/-- The binding state of a `let` variable at a given program point. -/
inductive Binding where
  | tdz : Binding
  | val : Option CellState → Binding

/-- Reading a `let` variable: inside its temporal dead zone this throws a
`ReferenceError`. -/
def readVar : Binding → Except JsFault (Option CellState)
  | Binding.tdz => Except.error JsFault.referenceError
  | Binding.val v => Except.ok v

/-- `source == null ? false : graph.getModel().isEdge(source.cell)`
(core.js 1125–1126), evaluated with `source` in the given binding state. -/
def orthEntrySourceEdge (b : Binding) : Except JsFault Bool :=
  match readVar b with
  | Except.error e => Except.error e
  | Except.ok s => Except.ok ((s.map (fun cs => cs.cellIsEdge)).getD false)

/-- At core.js line 1126 the binding of `source` is still in its temporal
dead zone: its `let` statement is line 1134. -/
def sourceBindingAtEntry : Binding := Binding.tdz

/-! ## Proof-support definitions and concrete example inputs -/

/-- Agreement of two pattern-execution states: same index, same
orientation, and the way-point buffers agree on every cell this invocation
has written (those up to the current index). -/
def StateAgree (s t : OrthLoopState) : Prop :=
  s.ci = t.ci ∧ s.lastOrientation = t.lastOrientation ∧
    ∀ j, j ≤ s.ci → s.wp j = t.wp j

/-- Agreement of two fallible pattern-execution outcomes. -/
def ExceptAgree : Except JsFault OrthLoopState → Except JsFault OrthLoopState →
    Prop
  | Except.error e, Except.error f => e = f
  | Except.ok s, Except.ok t => StateAgree s t
  | _, _ => False

/-- A pattern step is scratch-safe for a quadrant when every scratch read
it can perform hits a cell the invocation has freshly written: a limits
read only at side 1, 2, 4 or 8, and a vertex-separation read only at
direction index 1–4. -/
def codeSafeB (code quad : ℕ) : Bool :=
  let di := diOf code quad
  let tar := code &&& TARGET_MASK > 0
  let sou := code &&& SOURCE_MASK > 0
  let side := sideOf code quad
  let center := code &&& CENTER_MASK > 0
  (decide (¬ ((sou ∨ tar) ∧ side < 9 ∧ ¬ center)) ||
    decide (side = 1 ∨ side = 2 ∨ side = 4 ∨ side = 8)) &&
  (decide (¬ center) || decide (di = 1 ∨ di = 2 ∨ di = 3 ∨ di = 4))

/-- An invocation of the router that reaches the orthogonal route: the
entry completes and the fallback test is false. -/
def notDelegating (state : EdgeState) (src tgt : Option CellState)
    (hints : Option (List (Option MxPoint))) : Bool :=
  match orthPrelude state src tgt with
  | Except.ok pd => ! delegCond pd hints
  | Except.error _ => false

/-- The first scaled fixed endpoint, as `OrthConnector` reads it. -/
def scaledP0 (state : EdgeState) : Option MxPoint :=
  ((scalePointArray state.absolutePoints state.scale).head?).getD none

/-- The last scaled fixed endpoint, as `OrthConnector` reads it. -/
def scaledPe (state : EdgeState) : Option MxPoint :=
  ((scalePointArray state.absolutePoints state.scale).getLast?).getD none

/-- An empty style bag. -/
def flatStyle : Style := fun _ => none

/-- A rotation bounding-box oracle that leaves the rectangle unchanged. -/
def identityBBox : MxRect → ℚ → MxRect := fun r _ => r

/-- A plain vertex cell state with the given rectangle. -/
def vertexState (x y w h : ℚ) : CellState :=
  { x := x, y := y, width := w, height := h, style := flatStyle,
    cellIsEdge := false, portConstraint := none }

/-- An edge state whose first endpoint is fixed at the origin and whose
last endpoint is floating, at scale 1 with the identity control-point
transform. -/
def edgeStateFixedStart : EdgeState :=
  { absolutePoints := [some ⟨0, 0⟩, none], scale := 1, style := flatStyle,
    transformCP := id }

/-- An edge state with two floating endpoints. -/
def edgeStateFloating : EdgeState :=
  { absolutePoints := [none, none], scale := 1, style := flatStyle,
    transformCP := id }

/-- An edge state with both endpoints fixed one unit apart. -/
def edgeStateShort : EdgeState :=
  { absolutePoints := [some ⟨0, 0⟩, some ⟨1, 0⟩], scale := 1,
    style := flatStyle, transformCP := id }

/-- A style whose shared jetty key holds a non-numeric value that is not
the `"auto"` sentinel. -/
def malformedJettyStyle : Style :=
  fun k => if k = "jettySize" then some (SVal.str "bogus") else none

/-- An edge state carrying `malformedJettyStyle`. -/
def malformedJettyEdge : EdgeState :=
  { absolutePoints := [], scale := 1, style := malformedJettyStyle,
    transformCP := id }

/-- A 10×10 vertex at the origin whose port constraint forces a south
exit. -/
def c8src : CellState :=
  { vertexState 0 0 10 10 with portConstraint := some 4 }

/-- A 10×10 vertex up and to the left whose port constraint forces a west
entry. -/
def c8tgt : CellState :=
  { vertexState (-100) (-100) 10 10 with portConstraint := some 1 }

/-- The prelude data `OrthConnector` computes for `c8src`/`c8tgt` at scale
1 with floating endpoints. -/
def c8pd : OrthPreludeData :=
  { source := some c8src, target := some c8tgt, sourceEdge := false,
    targetEdge := false, p0 := none, pe := none,
    sourceX := 0, sourceY := 0, sourceWidth := 10, sourceHeight := 10,
    targetX := -100, targetY := -100, targetWidth := 10, targetHeight := 10,
    sourceBuffer := 10, targetBuffer := 10, totalBuffer := 20,
    tooShort := false }

/-! ## Theorems -/

theorem jsRound_close (y : ℚ) : |(jsRound y : ℚ) - y| ≤ 1/2 := by
  rw [abs_sub_le_iff]
  constructor
  · have h := Int.floor_le (y + 1/2)
    simp only [jsRound]
    linarith
  · have h := Int.lt_floor_add_one (y + 1/2)
    simp only [jsRound]
    linarith

theorem round10_close (q : ℚ) : |round10 q - q| ≤ 1/20 := by
  have h := jsRound_close (q * 10)
  have h10 : |round10 q - q| = |(jsRound (q * 10) : ℚ) - q * 10| / 10 := by
    rw [round10, ← abs_of_pos (show (0:ℚ) < 10 by norm_num), ← abs_div]
    congr 1
    field_simp
    ring
  rw [h10]
  linarith

theorem lookupCb_deleteCb_ne (cbs : CallbackTable) (m n : ℤ) (h : m ≠ n) :
    lookupCb (deleteCb cbs n) m = lookupCb cbs m := by
  induction cbs with
  | nil => rfl
  | cons p rest ih =>
    obtain ⟨k, v⟩ := p
    by_cases hk : k = n
    · subst hk
      have hm : m ≠ k := h
      simp [deleteCb, lookupCb, hm, ih]
    · by_cases hm : m = k
      · subst hm
        simp [deleteCb, lookupCb, hk]
      · simp [deleteCb, lookupCb, hk, hm, ih]

theorem quadOf_lt_four (dx dy : ℚ) : quadOf dx dy < 4 := by
  unfold quadOf
  split <;> split <;> first | (split <;> omega) | omega

/-- Claim C2: the spec's intended entry computes `sourceEdge` from the
already-scaled cell state and never faults; the source instead reads
`source` at core.js 1126 inside the temporal dead zone of its `let`
declaration at line 1134, so every invocation throws a `ReferenceError`
there, whereas the same expression evaluated with an initialised binding
returns the edge flag without fault. -/
theorem c2_entry_tdz_fault :
    orthEntrySourceEdge sourceBindingAtEntry =
      Except.error JsFault.referenceError
    ∧ orthEntrySourceEdge (Binding.val none) = Except.ok false
    ∧ ∀ cs : CellState,
        orthEntrySourceEdge (Binding.val (some cs)) = Except.ok cs.cellIsEdge :=
  ⟨rfl, rfl, fun _ => rfl⟩

/-- Claim C4 counterexample: at scale 100 the point (3, 0) scales to
(0, 0) — `round10 (3/100) = 0` — and multiplying back by the scale gives 0,
which misses the original x-coordinate 3 by far more than the claimed 0.1
absolute error. -/
theorem c4_roundtrip_counterexample :
    scalePointArray [some ⟨3, 0⟩] 100 = [some ⟨0, 0⟩]
    ∧ ¬ (|(0 : ℚ) * 100 - 3| ≤ 1/10) := by
  constructor
  · simp only [scalePointArray, List.map, Option.map]
    norm_num [round10, jsRound, MxPoint.mk.injEq]
  · norm_num

theorem getD_map_none (points : List (Option MxPoint))
    (f : Option MxPoint → Option MxPoint) (hf : f none = none) (j : ℕ)
    (h : points.getD j none = none) : (points.map f).getD j none = none := by
  rw [List.getD_eq_getElem?_getD] at h ⊢
  rw [List.getElem?_map]
  cases hj : points[j]? with
  | none => simp
  | some v =>
    rw [hj] at h
    simp at h
    simp [h, hf]

/-- Claim C4 (amended): `scalePointArray` keeps the length, passes null
entries through at their index, and maps each non-null point to
`(round10 (x/s), round10 (y/s))`; multiplying a scaled coordinate back by
`s` reproduces the original to within `|s|/20` absolute error (hence
within 0.1 exactly when `|s| ≤ 2`, not for every non-zero scale). -/
theorem c4_scalePointArray_amended (points : List (Option MxPoint)) (s : ℚ)
    (i j : ℕ) (q : MxPoint) (hs : s ≠ 0)
    (hq : points.getD i none = some q) :
    (scalePointArray points s).length = points.length
    ∧ (points.getD j none = none → (scalePointArray points s).getD j none = none)
    ∧ (scalePointArray points s).getD i none =
        some ⟨round10 (q.x / s), round10 (q.y / s)⟩
    ∧ |round10 (q.x / s) * s - q.x| ≤ |s| / 20
    ∧ |round10 (q.y / s) * s - q.y| ≤ |s| / 20 := by
  have bound : ∀ c : ℚ, |round10 (c / s) * s - c| ≤ |s| / 20 := by
    intro c
    have h1 := round10_close (c / s)
    have h2 : round10 (c / s) * s - c = (round10 (c / s) - c / s) * s := by
      field_simp
    rw [h2, abs_mul]
    have h3 : |round10 (c / s) - c / s| * |s| ≤ (1/20) * |s| :=
      mul_le_mul_of_nonneg_right h1 (abs_nonneg s)
    linarith
  refine ⟨by simp [scalePointArray], ?_, ?_, bound q.x, bound q.y⟩
  · intro hj
    exact getD_map_none points _ rfl j hj
  · rw [List.getD_eq_getElem?_getD] at hq ⊢
    unfold scalePointArray
    rw [List.getElem?_map]
    cases hij : points[i]? with
    | none => rw [hij] at hq; simp at hq
    | some v =>
      rw [hij] at hq
      simp at hq
      simp [hq]

/-- Claim C4 witness: the amended statement applied at the concrete array
`[some (1, 1), none]` with scale 2. -/
theorem c4_scalePointArray_amended_witness :
    (2 : ℚ) ≠ 0 ∧ ([some ⟨1, 1⟩, none] : List (Option MxPoint)).getD 0 none = some ⟨1, 1⟩
    ∧ ((scalePointArray [some ⟨1, 1⟩, none] 2).length = 2
      ∧ (([some ⟨1, 1⟩, none] : List (Option MxPoint)).getD 1 none = none →
          (scalePointArray [some ⟨1, 1⟩, none] 2).getD 1 none = none)
      ∧ (scalePointArray [some ⟨1, 1⟩, none] 2).getD 0 none =
          some ⟨round10 ((1 : ℚ) / 2), round10 ((1 : ℚ) / 2)⟩
      ∧ |round10 ((1 : ℚ) / 2) * 2 - 1| ≤ |(2 : ℚ)| / 20
      ∧ |round10 ((1 : ℚ) / 2) * 2 - 1| ≤ |(2 : ℚ)| / 20) := by
  refine ⟨by norm_num, rfl, ?_⟩
  exact c4_scalePointArray_amended [some ⟨1, 1⟩, none] 2 0 1 ⟨1, 1⟩
    (by norm_num) rfl

/-- Claim C5 counterexample: a style whose jetty entry is the non-numeric,
non-`"auto"` string `"bogus"` makes `getJettySize` return that string
unchanged, not the numeric global default `orthBuffer = 10`. -/
theorem c5_malformed_jetty_counterexample :
    getJettySize malformedJettyEdge true = SVal.str "bogus"
    ∧ SVal.str "bogus" ≠ SVal.num orthBuffer := by
  constructor
  · rfl
  · intro h
    cases h

/-- Claim C5 (amended): a jetty style value that is not the `"auto"`
sentinel is returned unchanged by `getJettySize`, even when it is a
non-numeric string — the numeric global default 10 is used only when
neither the per-endpoint nor the shared key is present. -/
theorem c5_malformed_jetty_amended (state : EdgeState) (isSource : Bool)
    (s : String)
    (h : state.style (if isSource then "sourceJettySize" else "targetJettySize")
          = some (SVal.str s)
        ∨ (state.style (if isSource then "sourceJettySize" else "targetJettySize")
            = none
          ∧ state.style "jettySize" = some (SVal.str s)))
    (hs : s ≠ "auto") :
    getJettySize state isSource = SVal.str s := by
  have hv : getValue state.style
      (if isSource then "sourceJettySize" else "targetJettySize")
      (getValue state.style "jettySize" (SVal.num orthBuffer)) = SVal.str s := by
    rcases h with h | ⟨h1, h2⟩
    · simp [getValue, h]
    · simp [getValue, h1, h2]
  unfold getJettySize
  rw [hv]
  have : SVal.str s ≠ SVal.str "auto" := by
    intro hc
    cases hc
    exact hs rfl
  rw [if_neg this]

/-- Claim C5 witness: the amended statement applied at the concrete
malformed style. -/
theorem c5_malformed_jetty_amended_witness :
    (malformedJettyEdge.style "sourceJettySize" = none
      ∧ malformedJettyEdge.style "jettySize" = some (SVal.str "bogus"))
    ∧ ("bogus" : String) ≠ "auto"
    ∧ getJettySize malformedJettyEdge true = SVal.str "bogus" := by
  refine ⟨⟨rfl, rfl⟩, by decide, ?_⟩
  exact c5_malformed_jetty_amended malformedJettyEdge true "bogus"
    (Or.inr ⟨rfl, rfl⟩) (by decide)

/-- Claim C10: with two pending requests under distinct correlation ids,
well-formed replies `[id, null, result]` delivered in either order settle
each request's promise by resolving it with exactly the result of the
reply bearing its own id; a non-array message, an array shorter than two,
and an array whose id matches no pending callback are all ignored — the
table is unchanged and no promise settles. -/
theorem c10_rpc_correlation (cbs : CallbackTable) (id1 id2 : ℤ)
    (tk1 tk2 : ℕ) (r1 r2 : JVal) (s : String) (v : JVal) (n : ℤ)
    (e res : JVal)
    (h12 : id1 ≠ id2)
    (h1 : lookupCb cbs id1 = some tk1)
    (h2 : lookupCb cbs id2 = some tk2)
    (hn : lookupCb cbs n = none) :
    ((onMessage cbs (JVal.arr [JVal.num id2, JVal.null, r2])).2 =
        some (tk2, Settlement.resolved r2)
      ∧ (onMessage (onMessage cbs (JVal.arr [JVal.num id2, JVal.null, r2])).1
          (JVal.arr [JVal.num id1, JVal.null, r1])).2 =
        some (tk1, Settlement.resolved r1))
    ∧ ((onMessage cbs (JVal.arr [JVal.num id1, JVal.null, r1])).2 =
        some (tk1, Settlement.resolved r1)
      ∧ (onMessage (onMessage cbs (JVal.arr [JVal.num id1, JVal.null, r1])).1
          (JVal.arr [JVal.num id2, JVal.null, r2])).2 =
        some (tk2, Settlement.resolved r2))
    ∧ onMessage cbs (JVal.str s) = (cbs, none)
    ∧ onMessage cbs (JVal.arr [v]) = (cbs, none)
    ∧ onMessage cbs (JVal.arr [JVal.num n, e, res]) = (cbs, none) := by
  have key : ∀ (m : ℤ) (tk : ℕ) (r : JVal) (t : CallbackTable),
      lookupCb t m = some tk →
      onMessage t (JVal.arr [JVal.num m, JVal.null, r]) =
        (deleteCb t m, some (tk, Settlement.resolved r)) := by
    intro m tk r t ht
    simp [onMessage, ht, fireCallback, JVal.truthy, List.getD]
  refine ⟨⟨?_, ?_⟩, ⟨?_, ?_⟩, rfl, by simp [onMessage], ?_⟩
  · rw [key id2 tk2 r2 cbs h2]
  · rw [key id2 tk2 r2 cbs h2]
    have h1' : lookupCb (deleteCb cbs id2) id1 = some tk1 := by
      rw [lookupCb_deleteCb_ne cbs id1 id2 h12, h1]
    rw [key id1 tk1 r1 _ h1']
  · rw [key id1 tk1 r1 cbs h1]
  · rw [key id1 tk1 r1 cbs h1]
    have h2' : lookupCb (deleteCb cbs id1) id2 = some tk2 := by
      rw [lookupCb_deleteCb_ne cbs id2 id1 (Ne.symm h12), h2]
    rw [key id2 tk2 r2 _ h2']
  · simp [onMessage, hn, List.getD]

/-- Claim C10 witness: the statement applied at a concrete two-entry
table with out-of-order replies. -/
theorem c10_rpc_correlation_witness :
    ((0 : ℤ) ≠ 1
      ∧ lookupCb [((0 : ℤ), 10), ((1 : ℤ), 11)] 0 = some 10
      ∧ lookupCb [((0 : ℤ), 10), ((1 : ℤ), 11)] 1 = some 11
      ∧ lookupCb [((0 : ℤ), 10), ((1 : ℤ), 11)] 5 = none)
    ∧ (onMessage [((0 : ℤ), 10), ((1 : ℤ), 11)]
        (JVal.arr [JVal.num 1, JVal.null, JVal.str "b"])).2 =
      some (11, Settlement.resolved (JVal.str "b")) := by
  refine ⟨⟨by decide, rfl, rfl, rfl⟩, ?_⟩
  exact (c10_rpc_correlation [((0 : ℤ), 10), ((1 : ℤ), 11)] 0 1 10 11
    (JVal.str "a") (JVal.str "b") "x" JVal.null 5 JVal.null JVal.null
    (by decide) rfl rfl rfl).1.1

/-- Claim C6: in the emission phase, way points 0 through
`currentIndex - 1` are always pushed, and the final computed way point (at
`currentIndex`) is pushed exactly when `sameOrient = (currentIndex + 1) %
2` — i.e. it is omitted iff `(currentIndex + 1) mod 2` differs from the
orientation-match indicator (`sameOrient` is 0 in `OrthConnector` when the
target direction's axis orientation equals the initial source orientation,
1 otherwise). -/
theorem c6_emission_parity (wp : ℕ → ℚ × ℚ) (ci sameOrient : ℕ) (scale : ℚ) :
    emitWayPoints wp ci sameOrient scale =
      ((List.range ci).map (fun i => some (roundScaledPoint (wp i) scale)))
      ++ (if sameOrient = (ci + 1) % 2
          then [some (roundScaledPoint (wp ci) scale)] else []) := by
  unfold emitWayPoints
  rw [List.range_succ, List.filterMap_append]
  congr 1
  · have hcongr : ∀ i ∈ List.range ci,
        (if i = ci ∧ sameOrient ≠ (ci + 1) % 2 then none
         else some (some (roundScaledPoint (wp i) scale))) =
        ((fun i => some (some (roundScaledPoint (wp i) scale))) i) := by
      intro i hi
      rw [List.mem_range] at hi
      have : ¬ (i = ci ∧ sameOrient ≠ (ci + 1) % 2) := by
        intro ⟨hic, _⟩
        omega
      rw [if_neg this]
    rw [List.filterMap_congr hcongr]
    rw [show (fun i => some (some (roundScaledPoint (wp i) scale))) =
        some ∘ (fun i => some (roundScaledPoint (wp i) scale)) from rfl]
    rw [List.filterMap_eq_map]
  · by_cases h : sameOrient = (ci + 1) % 2
    · simp [h]
    · simp [h]

/-- Claim C7 counterexample: with a null source, a null target and no
fixed endpoint points at all, `OrthConnector` reads `p0.x` on a null `p0`
(core.js 1140, before the fallback check) — the invocation throws instead
of returning the unchanged result. -/
theorem c7_null_endpoints_counterexample :
    OrthConnector defaultScratch identityBBox edgeStateFloating none none
        none [] = Except.error JsFault.nullDeref
    ∧ (Except.error JsFault.nullDeref :
        Except JsFault (List (Option MxPoint))) ≠ Except.ok [] := by
  constructor
  · have hpre : orthPrelude edgeStateFloating none none =
        Except.error JsFault.nullDeref := rfl
    simp only [OrthConnector, hpre]
  · intro h
    cases h

theorem scaled_all_none (state : EdgeState)
    (h : ∀ p ∈ state.absolutePoints, p = none) :
    ((scalePointArray state.absolutePoints state.scale).head?).getD none = none
    ∧ ((scalePointArray state.absolutePoints state.scale).getLast?).getD none
      = none := by
  have hall : ∀ p ∈ scalePointArray state.absolutePoints state.scale,
      p = none := by
    intro p hp
    unfold scalePointArray at hp
    obtain ⟨a, ha, rfl⟩ := List.mem_map.1 hp
    rw [h a ha]
    rfl
  constructor
  · cases hh : (scalePointArray state.absolutePoints state.scale).head? with
    | none => rfl
    | some a =>
      have := hall a (List.mem_of_mem_head? hh)
      simp [this]
  · cases hh : (scalePointArray state.absolutePoints state.scale).getLast? with
    | none => rfl
    | some a =>
      have := hall a (List.mem_of_getLast?_eq_some hh)
      simp [this]

/-- Claim C7 (amended): the never-throw/empty-path behaviour holds of the
segment connector, not of `OrthConnector` (which null-dereferences, see the
counterexample): `SegmentConnector` with a null source, a null target, no
fixed endpoint points and no control hints returns with the caller's
result unchanged. -/
theorem c7_segment_null_ok (state : EdgeState)
    (result : List (Option MxPoint))
    (h : ∀ p ∈ state.absolutePoints, p = none) :
    SegmentConnector state none none none result = Except.ok result := by
  obtain ⟨hp0, hpe⟩ := scaled_all_none state h
  simp only [SegmentConnector, hp0, hpe]
  rfl

/-- Claim C7 witness: the amended statement applied at a concrete
floating-endpoint edge with a non-empty prior result. -/
theorem c7_segment_null_ok_witness :
    (∀ p ∈ edgeStateFloating.absolutePoints, p = none)
    ∧ SegmentConnector edgeStateFloating none none none [some ⟨1, 2⟩] =
        Except.ok [some ⟨1, 2⟩] := by
  have hall : ∀ p ∈ edgeStateFloating.absolutePoints, p = none := by
    intro p hp
    cases hp with
    | head => rfl
    | tail _ hp2 =>
      cases hp2 with
      | head => rfl
      | tail _ hp3 => cases hp3
  exact ⟨hall, c7_segment_null_ok edgeStateFloating [some ⟨1, 2⟩] hall⟩

/-- Claim C9 counterexample: with two identical overlapping shapes (and no
hint, no fixed points) every candidate elbow point of `SideToSide` lies
inside the shapes, so the containment guards reject them all and zero
points are appended — the claimed lower bound of one point fails. -/
theorem c9_elbow_counterexample :
    SideToSide edgeStateFloating (some (vertexState 0 0 10 10))
      (some (vertexState 0 0 10 10)) none [] = []
    ∧ ¬ (1 ≤ (SideToSide edgeStateFloating (some (vertexState 0 0 10 10))
        (some (vertexState 0 0 10 10)) none []).length) := by
  have h : SideToSide edgeStateFloating (some (vertexState 0 0 10 10))
      (some (vertexState 0 0 10 10)) none [] = [] := by
    have hS : elbowSource edgeStateFloating (some (vertexState 0 0 10 10)) =
        some (vertexState 0 0 10 10) := rfl
    have hT : elbowTarget edgeStateFloating (some (vertexState 0 0 10 10)) =
        some (vertexState 0 0 10 10) := rfl
    have hpt : firstHint edgeStateFloating none = none := rfl
    simp only [SideToSide, hS, hT, hpt]
    norm_num [vertexState, getRoutingCenterY, containsCS, jsRound]
  refine ⟨h, ?_⟩
  rw [h]
  simp

theorem elbow_push_shape (r0 : List (Option MxPoint)) (c1 c2 : Prop)
    [Decidable c1] [Decidable c2] (p1 p2 p3 : MxPoint) :
    (if (if c2 then (if c1 then r0 ++ [some p1] else r0) ++ [some p2]
          else (if c1 then r0 ++ [some p1] else r0)).length = 1
      then (if c2 then (if c1 then r0 ++ [some p1] else r0) ++ [some p2]
          else (if c1 then r0 ++ [some p1] else r0)) ++ [some p3]
      else (if c2 then (if c1 then r0 ++ [some p1] else r0) ++ [some p2]
          else (if c1 then r0 ++ [some p1] else r0))).length ≤ r0.length + 2
    ∧ ∀ q : MxPoint,
        some q ∈ (if (if c2 then (if c1 then r0 ++ [some p1] else r0) ++ [some p2]
            else (if c1 then r0 ++ [some p1] else r0)).length = 1
          then (if c2 then (if c1 then r0 ++ [some p1] else r0) ++ [some p2]
              else (if c1 then r0 ++ [some p1] else r0)) ++ [some p3]
          else (if c2 then (if c1 then r0 ++ [some p1] else r0) ++ [some p2]
              else (if c1 then r0 ++ [some p1] else r0))).drop r0.length →
        q = p1 ∨ q = p2 ∨ q = p3 := by
  split_ifs with h1 h2 h3 h4 h5 h6 <;>
    simp_all [List.length_append, List.append_assoc, List.drop_left,
      List.drop_append_of_le_length, List.drop_length]

/-- Claim C9 (amended): with non-null source and target states (after
substituting fixed endpoint points) and no hint, `SideToSide` and
`TopToBottom` append at most two points — zero is possible when the
containment guards reject the candidates — and every appended point lies
on the channel coordinate `Math.round` of the midpoint of the overlapping
gap between the two shapes on the fixed axis (the rounded midpoint, not
the exact one). -/
theorem c9_elbow_amended (state : EdgeState) (src tgt : Option CellState)
    (points : Option (List (Option MxPoint)))
    (result : List (Option MxPoint)) (s t : CellState)
    (hS : elbowSource state src = some s)
    (hT : elbowTarget state tgt = some t)
    (hpt : firstHint state points = none) :
    ((SideToSide state src tgt points result).length ≤ result.length + 2
      ∧ ∀ q : MxPoint,
          some q ∈ (SideToSide state src tgt points result).drop result.length →
          q.x = (jsRound (min (s.x + s.width) (t.x + t.width) +
            (max s.x t.x - min (s.x + s.width) (t.x + t.width)) / 2) : ℚ))
    ∧ ((TopToBottom state src tgt points result).length ≤ result.length + 2
      ∧ ∀ q : MxPoint,
          some q ∈ (TopToBottom state src tgt points result).drop result.length →
          q.y = (jsRound (min (s.y + s.height) (t.y + t.height) +
            (max s.y t.y - min (s.y + s.height) (t.y + t.height)) / 2) : ℚ)) := by
  constructor
  · simp only [SideToSide, hS, hT, hpt]
    refine ⟨(elbow_push_shape result _ _ _ _ _).1, fun q hq => ?_⟩
    rcases (elbow_push_shape result _ _ _ _ _).2 q hq with rfl | rfl | rfl <;> rfl
  · simp only [TopToBottom, hS, hT, hpt]
    refine ⟨(elbow_push_shape result _ _ _ _ _).1, fun q hq => ?_⟩
    rcases (elbow_push_shape result _ _ _ _ _).2 q hq with rfl | rfl | rfl <;> rfl

/-- Claim C9 witness: the amended statement applied at two concrete
overlapping squares with no hint. -/
theorem c9_elbow_amended_witness :
    (elbowSource edgeStateFloating (some (vertexState 0 0 10 10)) =
        some (vertexState 0 0 10 10)
      ∧ elbowTarget edgeStateFloating (some (vertexState 0 0 10 10)) =
        some (vertexState 0 0 10 10)
      ∧ firstHint edgeStateFloating none = none)
    ∧ (SideToSide edgeStateFloating (some (vertexState 0 0 10 10))
        (some (vertexState 0 0 10 10)) none []).length ≤ ([] : List (Option MxPoint)).length + 2
    ∧ (TopToBottom edgeStateFloating (some (vertexState 0 0 10 10))
        (some (vertexState 0 0 10 10)) none []).length ≤ ([] : List (Option MxPoint)).length + 2 := by
  have h := c9_elbow_amended edgeStateFloating (some (vertexState 0 0 10 10))
    (some (vertexState 0 0 10 10)) none [] (vertexState 0 0 10 10)
    (vertexState 0 0 10 10) rfl rfl rfl
  exact ⟨⟨rfl, rfl, rfl⟩, h.1.1, h.2.1⟩

/-- Claim C1 counterexample: with a null target, a null last fixed point
and a non-empty control-hint list, the claim's fallback condition holds
(hints supplied), yet `OrthConnector` null-dereferences at `pe.x`
(core.js 1145) before reaching the delegation, appending nothing, while
`SegmentConnector` called directly with the same arguments appends two
points — the two invocations do not produce the same result. -/
theorem c1_delegation_counterexample :
    hintsSupplied (some [some (⟨50, 50⟩ : MxPoint)]) = true
    ∧ OrthConnector defaultScratch identityBBox edgeStateFixedStart none none
        (some [some ⟨50, 50⟩]) [] = Except.error JsFault.nullDeref
    ∧ SegmentConnector edgeStateFixedStart none none (some [some ⟨50, 50⟩]) []
        = Except.ok [some ⟨0, 50⟩, some ⟨50, 50⟩]
    ∧ OrthConnector defaultScratch identityBBox edgeStateFixedStart none none
        (some [some ⟨50, 50⟩]) [] ≠
      SegmentConnector edgeStateFixedStart none none (some [some ⟨50, 50⟩]) [] := by
  have hpre : orthPrelude edgeStateFixedStart none none =
      Except.error JsFault.nullDeref := rfl
  have horth : OrthConnector defaultScratch identityBBox edgeStateFixedStart
      none none (some [some ⟨50, 50⟩]) [] = Except.error JsFault.nullDeref := by
    simp only [OrthConnector, hpre]
  have hseg : SegmentConnector edgeStateFixedStart none none
      (some [some ⟨50, 50⟩]) [] = Except.ok [some ⟨0, 50⟩, some ⟨50, 50⟩] := by

    have habs : edgeStateFixedStart.absolutePoints = [some ⟨0, 0⟩, none] := rfl
    have hsc : edgeStateFixedStart.scale = 1 := rfl
    have htc : edgeStateFixedStart.transformCP = id := rfl
    have h1 : scalePointArray [some (⟨0, 0⟩ : MxPoint), none] 1 = [some ⟨0, 0⟩, none] := by
      simp [scalePointArray]
      norm_num [round10, jsRound]
    have hpe : ([some (⟨0, 0⟩ : MxPoint), none]).getLast? = some none := rfl
    have hflt : List.filterMap (fun o => transformControlPoint edgeStateFixedStart o)
        [some (⟨50, 50⟩ : MxPoint)] = [⟨50, 50⟩] := rfl
    have e1 : ¬((0 : ℚ) = 50) := by norm_num
    have e2 : ((0 : ℚ) ≠ 50) := by norm_num
    have e3 : ¬(|(50 : ℚ) - 0| < 1) := by norm_num
    simp only [SegmentConnector, habs, hsc, htc, h1]
    have hhs : hintsSupplied (some [some (⟨50, 50⟩ : MxPoint)]) = true := rfl
    have hiter0 : segAlignIter 0 none none [⟨50, 50⟩] true none (some ⟨0, 0⟩)
        ⟨50, 50⟩ = ⟨true, false, [⟨50, 50⟩], none, none, ⟨50, 50⟩⟩ := by
      simp [segAlignIter, decide_eq_false e1]
    have hiter1 : segAlignIter 1 none none [⟨50, 50⟩] true none none ⟨50, 50⟩ =
        ⟨true, false, [⟨50, 50⟩], none, none, ⟨50, 50⟩⟩ := rfl
    simp only [List.head?_cons, Option.getD_some, Option.getD_none, scaleCellState,
      Option.map_none', Option.map_some', hflt, hpe, e3, if_false, Option.isSome,
      if_true, hhs, hiter0, hiter1]
    have hpushA : pushPoint 1 ([], none) ⟨0, 50⟩ =
        ([some ⟨0, 50⟩], some ⟨0, 50⟩) := by
      simp [pushPoint]
      constructor <;> norm_num [round10, jsRound]
    have hpushB : pushPoint 1 ([some ⟨0, 50⟩], some ⟨0, 50⟩) ⟨50, 50⟩ =
        ([some ⟨0, 50⟩, some ⟨50, 50⟩], some ⟨50, 50⟩) := by
      simp only [pushPoint]
      norm_num [round10, jsRound]
    have htail : segmentTail 1 none none (some ⟨0, 0⟩) none (some ⟨50, 50⟩) false
        ([some ⟨0, 50⟩, some ⟨50, 50⟩], some ⟨50, 50⟩) =
        [some ⟨0, 50⟩, some ⟨50, 50⟩] := rfl
    simp only [decide_eq_true e2, List.head?_nil, Option.getD_none, hpushA,
      List.foldl_cons, List.foldl_nil, Bool.not_true, Bool.false_eq_true,
      if_false, if_true, Bool.true_and, hpushB]
    have hgl : ([⟨50, 50⟩] : List MxPoint).getLast? = some ⟨50, 50⟩ := rfl
    simp only [hgl, Option.getD_some, htail]
  refine ⟨rfl, horth, hseg, ?_⟩
  rw [horth, hseg]
  intro h
  cases h

theorem scaleCellState_edge (x : Option CellState) (q : ℚ) :
    ((scaleCellState x q).map (fun s => s.cellIsEdge)).getD false =
      (x.map (fun s => s.cellIsEdge)).getD false := by
  cases x <;> rfl

theorem scaleCellState_eq_none (x : Option CellState) (q : ℚ) :
    scaleCellState x q = none ↔ x = none := by
  cases x <;> simp [scaleCellState]

theorem orthPrelude_cases (state : EdgeState) (src tgt : Option CellState)
    (hsrcOk : src ≠ none ∨ scaledP0 state ≠ none)
    (htgtOk : tgt ≠ none ∨ scaledPe state ≠ none) :
    ∃ pd, orthPrelude state src tgt = Except.ok pd
      ∧ pd.sourceEdge = (src.map (fun s => s.cellIsEdge)).getD false
      ∧ pd.targetEdge = (tgt.map (fun t => t.cellIsEdge)).getD false
      ∧ pd.totalBuffer =
          svalNum (getJettySize state false) + svalNum (getJettySize state true)
      ∧ pd.tooShort = (match scaledP0 state, scaledPe state with
          | some a, some b =>
            decide ((b.x - a.x) * (b.x - a.x) + (b.y - a.y) * (b.y - a.y) <
              pd.totalBuffer * pd.totalBuffer)
          | _, _ => false) := by
  unfold orthPrelude
  rcases hA : scaleCellState src state.scale with _ | s' <;>
    rcases hp : ((scalePointArray state.absolutePoints state.scale).head?).getD
      none with _ | a <;>
    rcases hB : scaleCellState tgt state.scale with _ | t' <;>
    rcases hpe : ((scalePointArray state.absolutePoints
      state.scale).getLast?).getD none with _ | b <;>
    simp only [hA, hp, hB, hpe] <;>
    first
      | (exfalso
         rcases hsrcOk with h | h
         · exact h ((scaleCellState_eq_none src state.scale).1 hA)
         · exact h (by simpa [scaledP0] using hp))
      | (exfalso
         rcases htgtOk with h | h
         · exact h ((scaleCellState_eq_none tgt state.scale).1 hB)
         · exact h (by simpa [scaledPe] using hpe))
      | (refine ⟨_, rfl, ?_, ?_, rfl, ?_⟩
         · rw [← scaleCellState_edge src state.scale, hA]
         · rw [← scaleCellState_edge tgt state.scale, hB]
         · simp [scaledP0, scaledPe, hp, hpe])

/-- Claim C1 (amended): the delegation equivalence holds whenever the
entry of `OrthConnector` can actually reach the fallback test — each
terminal must offer a cell state or a fixed endpoint (otherwise the entry
faults on a null `p0`/`pe` before the test, as
`c1_delegation_counterexample` shows).  Under that proviso, if the squared
distance between the scaled fixed endpoints is below the squared jetty
stand-off, or control hints are supplied, or either terminal cell is an
edge, then `OrthConnector` returns exactly what `SegmentConnector` returns
on the same inputs. -/
theorem c1_delegation_amended (scratch : Scratch) (bbox : MxRect → ℚ → MxRect)
    (state : EdgeState) (src tgt : Option CellState)
    (hints : Option (List (Option MxPoint))) (result : List (Option MxPoint))
    (hsrcOk : src ≠ none ∨ scaledP0 state ≠ none)
    (htgtOk : tgt ≠ none ∨ scaledPe state ≠ none)
    (hcond : (∃ a b, scaledP0 state = some a ∧ scaledPe state = some b ∧
        (b.x - a.x) * (b.x - a.x) + (b.y - a.y) * (b.y - a.y) <
          (svalNum (getJettySize state true) + svalNum (getJettySize state false)) *
            (svalNum (getJettySize state true) + svalNum (getJettySize state false)))
      ∨ hintsSupplied hints = true
      ∨ (src.map (fun s => s.cellIsEdge)).getD false = true
      ∨ (tgt.map (fun t => t.cellIsEdge)).getD false = true) :
    OrthConnector scratch bbox state src tgt hints result =
      SegmentConnector state src tgt hints result := by
  obtain ⟨pd, hok, hse, hte, htb, hts⟩ :=
    orthPrelude_cases state src tgt hsrcOk htgtOk
  have hdel : delegCond pd hints = true := by
    unfold delegCond
    rcases hcond with ⟨a, b, ha, hb, hdist⟩ | hh | hs | ht
    · have h1 : pd.tooShort = true := by
        simp only [hts, ha, hb, htb]
        rw [add_comm (svalNum (getJettySize state true))] at hdist
        exact decide_eq_true hdist
      simp [h1]
    · simp [orthPointsFallback, hh]
    · simp [hse, hs]
    · simp [hte, ht]
  unfold OrthConnector
  rw [hok]
  simp [hdel]

/-- Witness for `c1_delegation_amended`: two 2×2 vertices one unit apart
(squared distance 1 < 400, the squared default stand-off 10 + 10). -/
theorem c1_delegation_amended_witness :
    OrthConnector defaultScratch identityBBox edgeStateShort
        (some (vertexState 0 0 2 2)) (some (vertexState 3 0 2 2)) none [] =
      SegmentConnector edgeStateShort (some (vertexState 0 0 2 2))
        (some (vertexState 3 0 2 2)) none [] := by
  refine c1_delegation_amended defaultScratch identityBBox edgeStateShort
    (some (vertexState 0 0 2 2)) (some (vertexState 3 0 2 2)) none []
    (Or.inl ?_) (Or.inl ?_) (Or.inl ⟨⟨0, 0⟩, ⟨1, 0⟩, ?_, ?_, ?_⟩)
  · simp
  · simp
  · norm_num [scaledP0, scalePointArray, round10, jsRound, edgeStateShort]
  · norm_num [scaledPe, scalePointArray, round10, jsRound, edgeStateShort]
  · have hj1 : svalNum (getJettySize edgeStateShort true) = 10 := rfl
    have hj2 : svalNum (getJettySize edgeStateShort false) = 10 := rfl
    rw [hj1, hj2]; norm_num

theorem limitsOf_agree (s1 s2 : Scratch) (geo : ℕ → MxRect) (buf : ℕ → ℚ)
    (i j : ℕ) (hi : i ≤ 1) (hj : j = 1 ∨ j = 2 ∨ j = 4 ∨ j = 8) :
    limitsOf s1 geo buf i j = limitsOf s2 geo buf i j := by
  have h2 : ¬ 2 ≤ i := by omega
  rcases hj with rfl | rfl | rfl | rfl <;> simp [limitsOf, h2]

theorem vertexSepOf_agree (s1 s2 : Scratch) (v1 v2 v3 v4 : ℚ) (j : ℕ)
    (hj : 1 ≤ j) (hj4 : j ≤ 4) :
    vertexSepOf s1 v1 v2 v3 v4 j = vertexSepOf s2 v1 v2 v3 v4 j := by
  interval_cases j <;> simp [vertexSepOf]

theorem dirLookup_di (code quad : ℕ) (v : ℚ × ℚ) (di : ℕ)
    (h : dirLookup code quad = some (v, di)) :
    di = diOf code quad ∧ 1 ≤ di := by
  unfold dirLookup at h
  rcases hd : diOf code quad with _ | d
  · rw [hd] at h; cases h
  · rw [hd] at h
    simp only [Option.map_eq_some'] at h
    obtain ⟨w, _, hw⟩ := h
    cases hw
    exact ⟨rfl, by omega⟩

theorem wpWrite_agree (w1 w2 : ℕ → ℚ × ℚ) (n i : ℕ) (x y : ℚ × ℚ)
    (h : ∀ j, j ≤ n → w1 j = w2 j) (hxy : x = y) :
    ∀ j, j ≤ n → wpWrite w1 i x j = wpWrite w2 i y j := by
  intro j hj
  unfold wpWrite
  by_cases hji : j = i
  · simp [hji, hxy]
  · simp [hji, h j hj]

theorem stepFinish_agree (co l ci₁ : ℕ) (wA wB : ℕ → ℚ × ℚ)
    (h : ∀ j, j ≤ ci₁ → wA j = wB j) :
    StateAgree
      (if ci₁ > 0 ∧ wpComp (wA ci₁) co = wpComp (wA (ci₁ - 1)) co
       then ⟨ci₁ - 1, wA, l⟩ else ⟨ci₁, wA, co⟩)
      (if ci₁ > 0 ∧ wpComp (wB ci₁) co = wpComp (wB (ci₁ - 1)) co
       then ⟨ci₁ - 1, wB, l⟩ else ⟨ci₁, wB, co⟩) := by
  have h1 : wB ci₁ = wA ci₁ := (h ci₁ le_rfl).symm
  have h2 : wB (ci₁ - 1) = wA (ci₁ - 1) := (h (ci₁ - 1) (by omega)).symm
  rw [h1, h2]
  split
  · refine ⟨rfl, rfl, ?_⟩
    intro j hj
    simp only at hj
    exact h j (by omega)
  · refine ⟨rfl, rfl, ?_⟩
    intro j hj
    simp only at hj
    exact h j hj

theorem orthStepCore_agree (quad : ℕ) (geo : ℕ → MxRect) (cF : ℕ → ℚ × ℚ)
    (L1 L2 : ℕ → ℕ → ℚ) (V1 V2 : ℕ → ℚ) (c l : ℕ) (w1 w2 : ℕ → ℚ × ℚ)
    (code : ℕ) (v : ℚ × ℚ) (di : ℕ)
    (hwp : ∀ j, j ≤ c → w1 j = w2 j)
    (hL : ((code &&& SOURCE_MASK > 0 ∨ code &&& TARGET_MASK > 0) ∧
        sideOf code quad < 9 ∧ ¬ (code &&& CENTER_MASK > 0)) →
      ∀ i, i ≤ 1 → L1 i (sideOf code quad) = L2 i (sideOf code quad))
    (hV : (code &&& CENTER_MASK > 0) → V1 di = V2 di) :
    StateAgree (orthStepCore quad geo cF L1 V1 ⟨c, w1, l⟩ code v di)
      (orthStepCore quad geo cF L2 V2 ⟨c, w2, l⟩ code v di) := by
  unfold orthStepCore
  dsimp only
  set co := if di % 2 > 0 then 0 else 1 with hco
  set ci₁ := if co ≠ l then c + 1 else c with hci₁
  set wA := if co ≠ l then wpWrite w1 (c + 1) (w1 c) else w1 with hwA
  set wB := if co ≠ l then wpWrite w2 (c + 1) (w2 c) else w2 with hwB
  have hAB : ∀ j, j ≤ ci₁ → wA j = wB j := by
    intro j hj
    by_cases h : co ≠ l
    · rw [hci₁, if_pos h] at hj
      rw [hwA, hwB, if_pos h, if_pos h]
      unfold wpWrite
      by_cases hjc : j = c + 1
      · simp [hjc, hwp c le_rfl]
      · simp only [hjc, if_false]
        exact hwp j (by omega)
    · rw [hci₁, if_neg h] at hj
      rw [hwA, hwB, if_neg h, if_neg h]
      exact hwp j hj
  have hr : wB ci₁ = wA ci₁ := (hAB ci₁ le_rfl).symm
  by_cases hB : ((code &&& SOURCE_MASK > 0 ∨ code &&& TARGET_MASK > 0) ∧
      sideOf code quad < 9)
  · simp only [if_pos hB]
    by_cases hD : (code &&& CENTER_MASK > 0)
    · by_cases hE : co = 0
      · simp only [if_pos (And.intro hD hE), if_pos hE, hr]
        refine stepFinish_agree co l ci₁ _ _ ?_
        intro j hj
        split_ifs <;>
          first
            | exact wpWrite_agree _ _ ci₁ ci₁ _ _ hAB rfl j hj
            | exact hAB j hj
      · simp only [if_neg (fun h : _ ∧ _ => hE h.2), if_pos hD, if_neg hE, hr]
        refine stepFinish_agree co l ci₁ _ _ ?_
        intro j hj
        split_ifs <;>
          first
            | exact wpWrite_agree _ _ ci₁ ci₁ _ _ hAB rfl j hj
            | exact hAB j hj
    · have hlim : L1 (if code &&& SOURCE_MASK > 0 then 0 else 1)
          (sideOf code quad) =
          L2 (if code &&& SOURCE_MASK > 0 then 0 else 1) (sideOf code quad) :=
        hL ⟨hB.1, hB.2, hD⟩ _ (by split <;> omega)
      by_cases hE : co = 0
      · simp only [if_neg (fun h : _ ∧ _ => hD h.1), if_neg hD, if_pos hE,
          hr, hlim]
        refine stepFinish_agree co l ci₁ _ _ ?_
        intro j hj
        split_ifs <;>
          first
            | exact wpWrite_agree _ _ ci₁ ci₁ _ _ hAB rfl j hj
            | exact hAB j hj
      · simp only [if_neg (fun h : _ ∧ _ => hD h.1), if_neg hD, if_neg hE,
          hr, hlim]
        refine stepFinish_agree co l ci₁ _ _ ?_
        intro j hj
        split_ifs <;>
          first
            | exact wpWrite_agree _ _ ci₁ ci₁ _ _ hAB rfl j hj
            | exact hAB j hj
  · simp only [if_neg hB]
    by_cases hD : (code &&& CENTER_MASK > 0)
    · simp only [if_pos hD, hr, hV hD]
      exact stepFinish_agree co l ci₁ _ _
        (wpWrite_agree _ _ ci₁ ci₁ _ _ hAB rfl)
    · simp only [if_neg hD]
      exact stepFinish_agree co l ci₁ _ _ hAB

theorem orthStep_agree (quad : ℕ) (geo : ℕ → MxRect) (cF : ℕ → ℚ × ℚ)
    (L1 L2 : ℕ → ℕ → ℚ) (V1 V2 : ℕ → ℚ) (st1 st2 : OrthLoopState) (code : ℕ)
    (hst : StateAgree st1 st2)
    (hsafe : codeSafeB code quad = true)
    (hL : ∀ i j, i ≤ 1 → (j = 1 ∨ j = 2 ∨ j = 4 ∨ j = 8) → L1 i j = L2 i j)
    (hV : ∀ j, 1 ≤ j → j ≤ 4 → V1 j = V2 j) :
    ExceptAgree (orthStep quad geo cF L1 V1 st1 code)
      (orthStep quad geo cF L2 V2 st2 code) := by
  unfold orthStep
  cases hd : dirLookup code quad with
  | none => simp only []; rfl
  | some p =>
    obtain ⟨v, di⟩ := p
    obtain ⟨hdi, hdi1⟩ := dirLookup_di code quad v di hd
    simp only [codeSafeB, Bool.and_eq_true, Bool.or_eq_true,
      decide_eq_true_eq] at hsafe
    obtain ⟨hs1, hs2⟩ := hsafe
    obtain ⟨c1, w1, l1⟩ := st1
    obtain ⟨c2, w2, l2⟩ := st2
    obtain ⟨hc, hl, hw⟩ := hst
    simp only at hc hl hw
    subst hc hl
    show StateAgree (orthStepCore quad geo cF L1 V1 ⟨c1, w1, l1⟩ code v di)
      (orthStepCore quad geo cF L2 V2 ⟨c1, w2, l1⟩ code v di)
    refine orthStepCore_agree quad geo cF L1 L2 V1 V2 c1 l1 w1 w2 code v di hw
      ?_ ?_
    · intro hg i hi
      rcases hs1 with h | h
      · exact absurd hg h
      · exact hL i (sideOf code quad) hi h
    · intro hcen
      rcases hs2 with h | h
      · exact absurd hcen h
      · refine hV di hdi1 ?_
        rw [hdi]
        omega

theorem orthRun_agree (quad : ℕ) (geo : ℕ → MxRect) (cF : ℕ → ℚ × ℚ)
    (L1 L2 : ℕ → ℕ → ℚ) (V1 V2 : ℕ → ℚ) (codes : List ℕ)
    (st1 st2 : OrthLoopState)
    (hst : StateAgree st1 st2)
    (hsafe : ∀ code ∈ codes, codeSafeB code quad = true)
    (hL : ∀ i j, i ≤ 1 → (j = 1 ∨ j = 2 ∨ j = 4 ∨ j = 8) → L1 i j = L2 i j)
    (hV : ∀ j, 1 ≤ j → j ≤ 4 → V1 j = V2 j) :
    ExceptAgree (orthRun quad geo cF L1 V1 codes st1)
      (orthRun quad geo cF L2 V2 codes st2) := by
  induction codes generalizing st1 st2 with
  | nil => exact hst
  | cons c cs ih =>
    unfold orthRun
    have h1 := orthStep_agree quad geo cF L1 L2 V1 V2 st1 st2 c hst
      (hsafe c (by simp)) hL hV
    cases e1 : orthStep quad geo cF L1 V1 st1 c with
    | error e =>
      cases e2 : orthStep quad geo cF L2 V2 st2 c with
      | error f => rw [e1, e2] at h1; exact h1
      | ok s2' => rw [e1, e2] at h1; exact h1.elim
    | ok s1' =>
      cases e2 : orthStep quad geo cF L2 V2 st2 c with
      | error f => rw [e1, e2] at h1; exact h1.elim
      | ok s2' =>
        rw [e1, e2] at h1
        exact ih s1' s2' h1 (fun code hc => hsafe code (by simp [hc]))

theorem emitWayPoints_agree (s t : OrthLoopState) (h : StateAgree s t)
    (so : ℕ) (scale : ℚ) :
    emitWayPoints s.wp s.ci so scale = emitWayPoints t.wp t.ci so scale := by
  obtain ⟨hc, _, hw⟩ := h
  rw [← hc]
  unfold emitWayPoints
  refine List.filterMap_congr ?_
  intro i hi
  have hic : i ≤ s.ci := by
    have := List.mem_range.1 hi
    omega
  rw [hw i hic]

theorem jsIndexZ_mem {α : Type} (l : List α) (i : ℤ) (a : α)
    (h : jsIndexZ l i = some a) : a ∈ l := by
  unfold jsIndexZ at h
  split at h
  · cases h
  · exact List.get?_mem h

theorem routePatterns_safe :
    ∀ row ∈ routePatterns, ∀ pat ∈ row, ∀ code ∈ pat, ∀ quad, quad < 4 →
      codeSafeB code quad = true := by decide

theorem orthFinish_agree (quad : ℕ) (geoF : ℕ → MxRect) (cF : ℕ → ℚ × ℚ)
    (L1 L2 : ℕ → ℕ → ℚ) (V1 V2 : ℕ → ℚ) (w1 w2 : ℕ → ℚ × ℚ)
    (io : ℕ) (si ti : ℤ) (so : ℕ) (scale : ℚ) (result : List (Option MxPoint))
    (hquad : quad < 4)
    (hL : ∀ i j, i ≤ 1 → (j = 1 ∨ j = 2 ∨ j = 4 ∨ j = 8) → L1 i j = L2 i j)
    (hV : ∀ j, 1 ≤ j → j ≤ 4 → V1 j = V2 j)
    (hw0 : w1 0 = w2 0) :
    orthFinish quad geoF cF L1 V1 w1 io si ti so scale result =
      orthFinish quad geoF cF L2 V2 w2 io si ti so scale result := by
  cases hrow : jsIndexZ routePatterns (si - 1) with
  | none => simp only [orthFinish, hrow]
  | some row =>
    cases hpat : jsIndexZ row (ti - 1) with
    | none => simp only [orthFinish, hrow, hpat]
    | some pat =>
      have hsafe : ∀ code ∈ pat, codeSafeB code quad = true := fun code hc =>
        routePatterns_safe row (jsIndexZ_mem _ _ _ hrow) pat
          (jsIndexZ_mem _ _ _ hpat) code hc quad hquad
      have hst : StateAgree ⟨0, w1, io⟩ ⟨0, w2, io⟩ := by
        refine ⟨rfl, rfl, ?_⟩
        intro j hj
        simp only at hj
        interval_cases j
        exact hw0
      have h := orthRun_agree quad geoF cF L1 L2 V1 V2 pat ⟨0, w1, io⟩
        ⟨0, w2, io⟩ hst hsafe hL hV
      cases e1 : orthRun quad geoF cF L1 V1 pat ⟨0, w1, io⟩ with
      | error e =>
        cases e2 : orthRun quad geoF cF L2 V2 pat ⟨0, w2, io⟩ with
        | error f =>
          rw [e1, e2] at h
          simp only [orthFinish, hrow, hpat, e1, e2]
          exact congrArg Except.error h
        | ok s2' => rw [e1, e2] at h; exact h.elim
      | ok fin1 =>
        cases e2 : orthRun quad geoF cF L2 V2 pat ⟨0, w2, io⟩ with
        | error f => rw [e1, e2] at h; exact h.elim
        | ok fin2 =>
          rw [e1, e2] at h
          simp only [orthFinish, hrow, hpat, e1, e2]
          rw [emitWayPoints_agree fin1 fin2 h so scale]

/-- Claim C3: for every fixed input (edge state, source and target cell
states, control hints, rotation oracle and caller result array), two
invocations of the orthogonal router return identical point sequences
regardless of what the shared scratch buffers (`wayPoints1`, `limits`,
`vertexSeperations`) held before each call: every scratch cell the
route-pattern loop can read is freshly overwritten by the invocation
first. -/
theorem c3_scratch_independence (s1 s2 : Scratch) (bbox : MxRect → ℚ → MxRect)
    (state : EdgeState) (src tgt : Option CellState)
    (hints : Option (List (Option MxPoint))) (result : List (Option MxPoint)) :
    OrthConnector s1 bbox state src tgt hints result =
      OrthConnector s2 bbox state src tgt hints result := by
  unfold OrthConnector
  cases hpre : orthPrelude state src tgt with
  | error e => rfl
  | ok pd =>
    by_cases hdel : delegCond pd hints = true
    · simp only [hdel, if_true]
    · simp only [hdel, if_false, Bool.false_eq_true]
      unfold orthMain
      exact orthFinish_agree _ _ _ _ _ _ _ _ _ _ _ _ _ _ _
        (quadOf_lt_four _ _)
        (fun i j hi hj => limitsOf_agree s1 s2 _ _ i j hi hj)
        (fun j h1 h4 => vertexSepOf_agree s1 s2 _ _ _ _ j h1 h4)
        (by simp)

theorem removeDuplicates_cons_head (b : Option MxPoint) :
    ∀ rest, ∃ t, removeDuplicates (b :: rest) = b :: t
  | [] => ⟨[], by simp [removeDuplicates]⟩
  | c :: rs => by
    unfold removeDuplicates
    by_cases h : adjacentDuplicate b c = true
    · simp only [h, if_true]
      exact removeDuplicates_cons_head b rs
    · simp only [h, if_false]
      exact ⟨removeDuplicates (c :: rs), rfl⟩
termination_by rest => rest.length

theorem removeDuplicates_chain' :
    ∀ l : List (Option MxPoint),
      List.Chain' (fun a b => adjacentDuplicate a b = false)
        (removeDuplicates l)
  | [] => by simp [removeDuplicates]
  | [a] => by simp [removeDuplicates]
  | a :: b :: rest => by
    unfold removeDuplicates
    by_cases h : adjacentDuplicate a b = true
    · simp only [h, if_true]
      exact removeDuplicates_chain' (a :: rest)
    · simp only [h, if_false]
      refine List.chain'_cons'.mpr ⟨?_, removeDuplicates_chain' (b :: rest)⟩
      intro y hy
      obtain ⟨t, ht⟩ := removeDuplicates_cons_head b rest
      rw [ht] at hy
      simp only [List.head?_cons, Option.mem_def, Option.some.injEq] at hy
      subst hy
      exact Bool.not_eq_true _ ▸ h
termination_by l => l.length

theorem orthFinish_ok_shape (quad : ℕ) (geoF : ℕ → MxRect) (cF : ℕ → ℚ × ℚ)
    (L : ℕ → ℕ → ℚ) (V : ℕ → ℚ) (w : ℕ → ℚ × ℚ) (io : ℕ) (si ti : ℤ)
    (so : ℕ) (scale : ℚ) (result res : List (Option MxPoint))
    (h : orthFinish quad geoF cF L V w io si ti so scale result =
      Except.ok res) : ∃ l, res = removeDuplicates l := by
  unfold orthFinish at h
  split at h
  · cases h
  · split at h
    · cases h
    · split at h
      · cases h
      · exact ⟨_, (Except.ok.inj h).symm⟩

/-- Claim C8: every invocation of `OrthConnector` that runs the orthogonal
route to completion (reaching the final duplicate-removal pass of
core.js 1676–1691) returns a sequence in which no two consecutive non-null
points have equal coordinates. -/
theorem c8_no_adjacent_duplicates (scratch : Scratch)
    (bbox : MxRect → ℚ → MxRect) (state : EdgeState)
    (src tgt : Option CellState) (hints : Option (List (Option MxPoint)))
    (result res : List (Option MxPoint))
    (hnd : notDelegating state src tgt hints = true)
    (hok : OrthConnector scratch bbox state src tgt hints result =
      Except.ok res) :
    List.Chain' (fun a b => adjacentDuplicate a b = false) res := by
  unfold notDelegating at hnd
  unfold OrthConnector at hok
  cases hpre : orthPrelude state src tgt with
  | error e =>
    rw [hpre] at hnd
    cases hnd
  | ok pd =>
    rw [hpre] at hnd hok
    simp only [Bool.not_eq_true'] at hnd
    simp only [hnd, Bool.false_eq_true, if_false] at hok
    unfold orthMain at hok
    obtain ⟨l, hl⟩ :=
      orthFinish_ok_shape _ _ _ _ _ _ _ _ _ _ _ _ _ hok
    subst hl
    exact removeDuplicates_chain' l

theorem c8src_scaled : scaleCellState (some c8src) 1 = some c8src := by
  simp only [scaleCellState, Option.map_some', c8src, vertexState]
  norm_num [round10, jsRound]

theorem c8tgt_scaled : scaleCellState (some c8tgt) 1 = some c8tgt := by
  simp only [scaleCellState, Option.map_some', c8tgt, vertexState]
  norm_num [round10, jsRound]

theorem c8_prelude_eval :
    orthPrelude edgeStateFloating (some c8src) (some c8tgt) =
      Except.ok c8pd := by
  have hpts : scalePointArray [none, none] (1 : ℚ) = [none, none] := rfl
  simp only [orthPrelude, edgeStateFloating, hpts, c8src_scaled, c8tgt_scaled,
    List.head?_cons, Option.getD_some]
  simp only [c8pd, c8src, c8tgt, vertexState]
  have hne : ¬ ((SVal.num 10 : SVal) = SVal.str "auto") := by decide
  norm_num [getJettySize, getValue, flatStyle, svalNum, orthBuffer, hne]

set_option maxHeartbeats 1000000 in
theorem c8_main_eval :
    orthMain defaultScratch identityBBox edgeStateFloating c8pd [] =
      Except.ok [some ⟨5, 20⟩, some ⟨-110, 20⟩, some ⟨-110, -95⟩] := by
  simp only [orthMain, c8pd, c8src, c8tgt, vertexState, getPortConstraints,
    flatStyle, getValue, svalNum, Option.getD_some, Option.isSome_some,
    if_true]
  norm_num [quadOf, termDirConstraint, reversePortConstraints,
    DIRECTION_MASK_WEST, DIRECTION_MASK_NORTH, DIRECTION_MASK_SOUTH,
    DIRECTION_MASK_EAST, dirCompact, jsShl32]
  have hio : (if 0 < 4 &&& (8 ||| 1) then (0:ℕ) else 1) = 1 := by decide
  have hso0 : (if 0 < (8 ||| 1) % 2 then (0:ℕ) else 1) = 0 := by decide
  simp only [hio, hso0, edgeStateFloating]
  norm_num
  have hrow : jsIndexZ routePatterns ((4:ℤ) - 1) =
      some [[2081, 2562], [1057, 513, 1090, 514, 2184, 2114, 2561],
        [1057, 513, 1090, 514, 2184, 2562, 2564],
        [1057, 2561, 1090, 514, 2568, 2308]] := rfl
  have hpat : jsIndexZ [[2081, 2562], [1057, 513, 1090, 514, 2184, 2114, 2561],
        [1057, 513, 1090, 514, 2184, 2562, 2564],
        [1057, 2561, 1090, 514, 2568, 2308]] ((1:ℤ) - 1) =
      some [2081, 2562] := rfl
  have hd1 : dirLookup 2081 0 = some ((-1, 0), 1) := rfl
  have hd2 : dirLookup 2562 0 = some ((0, -1), 2) := rfl
  simp only [orthFinish, hrow, hpat, orthRun, orthStep, hd1, hd2]
  have hA1 : 2081 &&& 1024 = 0 := by decide
  have hA2 : 2081 &&& 2048 = 2048 := by decide
  have hA3 : (2081 &&& 480) >>> 5 = 1 := by decide
  have hA4 : 2081 &&& 512 = 0 := by decide
  have hB1 : 2562 &&& 1024 = 0 := by decide
  have hB2 : 2562 &&& 2048 = 2048 := by decide
  have hB3 : (2562 &&& 480) >>> 5 = 0 := by decide
  have hB4 : 2562 &&& 512 = 512 := by decide
  norm_num [orthStepCore, sideOf, wpWrite, wpComp, limitsOf, vertexSepOf,
    defaultScratch, SOURCE_MASK, TARGET_MASK, SIDE_MASK, CENTER_MASK,
    hA1, hA2, hA3, hA4, hB1, hB2, hB3, hB4]
  have hr3 : List.range 3 = [0, 1, 2] := rfl
  have e1 : ¬((5:ℚ) = -110) := by norm_num
  have e2 : ¬((20:ℚ) = -95) := by norm_num
  norm_num [emitWayPoints, hr3, List.filterMap, wpWrite, roundScaledPoint,
    round10, jsRound, removeDuplicates, adjacentDuplicate,
    decide_eq_false e1, decide_eq_false e2]

/-- Witness for `c8_no_adjacent_duplicates`: two port-constrained vertices
whose route executes the two-step pattern `[2081, 2562]`; the router
returns three way points and no two consecutive ones coincide. -/
theorem c8_no_adjacent_duplicates_witness :
    notDelegating edgeStateFloating (some c8src) (some c8tgt) none = true ∧
    OrthConnector defaultScratch identityBBox edgeStateFloating (some c8src)
        (some c8tgt) none [] =
      Except.ok [some ⟨5, 20⟩, some ⟨-110, 20⟩, some ⟨-110, -95⟩] ∧
    List.Chain' (fun a b => adjacentDuplicate a b = false)
      [some ⟨5, 20⟩, some ⟨-110, 20⟩, some ⟨-110, -95⟩] := by
  have h1 : notDelegating edgeStateFloating (some c8src) (some c8tgt) none =
      true := by
    unfold notDelegating
    rw [c8_prelude_eval]
    rfl
  have h2 : OrthConnector defaultScratch identityBBox edgeStateFloating
      (some c8src) (some c8tgt) none [] =
      Except.ok [some ⟨5, 20⟩, some ⟨-110, 20⟩, some ⟨-110, -95⟩] := by
    have hdc : delegCond c8pd none = false := rfl
    simp only [OrthConnector, c8_prelude_eval, hdc, Bool.false_eq_true,
      if_false]
    exact c8_main_eval
  exact ⟨h1, h2, c8_no_adjacent_duplicates defaultScratch identityBBox
    edgeStateFloating (some c8src) (some c8tgt) none [] _ h1 h2⟩
